import Mathlib

/-!
# kube-spawn `pkg/cluster`: rendering of the node configuration artifacts

`ExecuteTemplate` parses a template string with Go's `text/template` and executes
it on a data value, writing into a byte buffer.  The development below embeds

* the fragment of `text/template` that the templates of `clusterfiles.go` use
  (text, `{{.Field}}`, `{{if}}`/`{{else}}`/`{{end}}`, the comparison functions
  `eq` and `ne`, string constants, and the trim markers `{{- ` and ` -}}`),
* `ExecuteTemplate` itself, with the buffer it returns next to the error,
* the template constants of `clusterfiles.go`, character for character (the CNI manifest
  `CalicoNet`, fixed text that no statement below reads, is left out).

Strings are Lean strings; the buffer is the string written so far.  On a template that uses
a construct outside the fragment (pipes, variables, numbers, `range`, `else if`, comments,
other functions, escapes in string constants, Unicode letters in names) `Parse` answers
`ParseError.outside`, which stands for "not embedded", not for an error of the code; the
statements about arbitrary template strings assume `inFragment`.  Every template of
`clusterfiles.go` is inside the fragment.  Error messages abbreviate those of Go.
-/

namespace Cluster

/-! ## Values and data -/

/-- The kinds of Go value that reach a template here: strings and booleans. -/
inductive Value where
  | str (s : String)
  | bool (b : Bool)
  deriving DecidableEq, Repr

/-- The data a template is executed on: a struct, given by its exported fields. -/
abbrev TmplData := List (String × Value)

deriving instance DecidableEq for Except

/-- The failure of `Parse` on a template string.  `invalid` is an error that
`template.Parse` reports (the message abbreviates Go's).  `outside` marks a construct of
`text/template` that this development does not embed: on such a template the code may
well parse and execute, and nothing is stated about it. -/
inductive ParseError where
  | invalid (msg : String)
  | outside (what : String)
  deriving DecidableEq, Repr

/-- The error `ExecuteTemplate` returns: from `Parse` or from `Execute`. -/
inductive TmplError where
  | parse (err : ParseError)
  | exec (msg : String)
  deriving DecidableEq, Repr

/-! ## Lexing (`text/template/parse/lex.go`) -/

/-- The operands and identifiers of an action. -/
inductive Word where
  | ident (name : String)
  | field (name : String)
  | str (s : String)
  deriving DecidableEq, Repr

/-- The lexer's output: runs of text and the words of each action. -/
inductive Item where
  | text (s : String)
  | action (ws : List Word)
  deriving DecidableEq, Repr

/-- The lexer's `isSpace`: the characters a trim marker removes and that separate words. -/
def isSpace (c : Char) : Bool :=
  c = ' ' || c = '\t' || c = '\r' || c = '\n'

/-- The lexer's `isAlphaNumeric`, on ASCII: underscore, letter or digit. -/
def isAlphaNumeric (c : Char) : Bool :=
  c = '_' || c.isAlpha || c.isDigit

/-- The double quote that opens and closes a string constant. -/
def dquote : Char := '"'

/-- The left brace; two of them are the left delimiter. -/
def lbrace : Char := '{'

/-- The right brace; two of them are the right delimiter. -/
def rbrace : Char := '}'

/-- Go's `strings.HasPrefix` on character lists. -/
def hasPrefix : List Char → List Char → Bool
  | _, [] => true
  | [], _ :: _ => false
  | c :: cs, p :: ps => c = p && hasPrefix cs ps

/-- The lexer's `hasLeftTrimMarker`: a minus and then a space character. -/
def hasLeftTrimMarker : List Char → Bool
  | m :: s :: _ => m = '-' && isSpace s
  | _ => false

/-- The lexer's `hasRightTrimMarker`: a space character and then a minus. -/
def hasRightTrimMarker : List Char → Bool
  | s :: m :: _ => isSpace s && m = '-'
  | _ => false

/-- The text before a trimming left delimiter, given reversed, without its trailing spaces
(`rightTrimLength`). -/
def rightTrim (acc : List Char) : List Char :=
  acc.dropWhile isSpace

/-- A text item for the characters collected in reverse, none when there are no characters:
the lexer emits `itemText` only for a non-empty run. -/
def textItem (acc : List Char) : List Item :=
  if acc.isEmpty then [] else [Item.text (String.mk acc.reverse)]

/-- The states of the lexer.  `text skip acc` scans text (`skip`: still dropping the spaces
after a trimming right delimiter), `inside ws` is between the words of an action,
`ident`, `field` and `quote` collect one word, `drop n m` passes over `n + 1` characters of
a delimiter already recognised and continues in `m`.  Collected lists are reversed. -/
inductive LexMode where
  | text (skip : Bool) (acc : List Char)
  | inside (ws : List Word)
  | ident (ws : List Word) (acc : List Char)
  | field (ws : List Word) (acc : List Char)
  | quote (ws : List Word) (acc : List Char)
  | drop (n : Nat) (m : LexMode)

/-- One step of `lexInsideAction` at the character `c` followed by `rest`: the right
delimiter (with or without trim marker) closes the action, a space is skipped, a quote, a
dot or a letter starts a word.  A digit starts a number, which is outside the fragment, as
is every other character. -/
def stepInside (ws : List Word) (c : Char) (rest : List Char) :
    Except ParseError (List Item × LexMode) :=
  if hasRightTrimMarker (c :: rest) && hasPrefix (rest.drop 1) [rbrace, rbrace] then
    .ok ([Item.action ws.reverse], .drop 2 (.text true []))
  else if hasPrefix (c :: rest) [rbrace, rbrace] then
    .ok ([Item.action ws.reverse], .drop 0 (.text false []))
  else if isSpace c then .ok ([], .inside ws)
  else if c = dquote then .ok ([], .quote ws [])
  else if c = '.' then .ok ([], .field ws [])
  else if c.isDigit then .error (.outside "number")
  else if isAlphaNumeric c then .ok ([], .ident ws [c])
  else .error (.outside "character in action")

/-- One step of the lexer in state `m` at the character `c` followed by `rest`: the items
emitted and the next state.  A word ends at a space or at the right delimiter; the other
characters that may end a word in Go (`.`, `,`, `|`, `:`, `(`, `)`) belong to constructs
outside the fragment, and so does a dot followed by a digit (a number). -/
def lexStep : LexMode → Char → List Char → Except ParseError (List Item × LexMode)
  | .text skip acc, c, rest =>
      if hasPrefix (c :: rest) [lbrace, lbrace] then
        if hasLeftTrimMarker (rest.drop 1) then
          .ok (textItem (rightTrim acc), .drop 2 (.inside []))
        else
          .ok (textItem acc, .drop 0 (.inside []))
      else if skip && isSpace c then .ok ([], .text true [])
      else .ok ([], .text false (c :: acc))
  | .inside ws, c, rest => stepInside ws c rest
  | .ident ws acc, c, rest =>
      if isAlphaNumeric c then .ok ([], .ident ws (c :: acc))
      else if isSpace c || hasPrefix (c :: rest) [rbrace, rbrace] then
        stepInside (Word.ident (String.mk acc.reverse) :: ws) c rest
      else .error (.outside "character after a word")
  | .field ws acc, c, rest =>
      if acc.isEmpty && c.isDigit then .error (.outside "number")
      else if isAlphaNumeric c then .ok ([], .field ws (c :: acc))
      else if acc.isEmpty then .error (.outside "dot")
      else if isSpace c || hasPrefix (c :: rest) [rbrace, rbrace] then
        stepInside (Word.field (String.mk acc.reverse) :: ws) c rest
      else .error (.outside "character after a word")
  | .quote ws acc, c, _ =>
      if c = dquote then .ok ([], .inside (Word.str (String.mk acc.reverse) :: ws))
      else if c = '\\' then .error (.outside "escape in a string constant")
      else if c = '\n' then .error (.invalid "unterminated quoted string")
      else .ok ([], .quote ws (c :: acc))
  | .drop 0 m, _, _ => .ok ([], m)
  | .drop (n + 1) m, _, _ => .ok ([], .drop n m)

/-- The lexer at the end of the input: text ends the template, anything else is an action
left open. -/
def lexEnd : LexMode → Except ParseError (List Item)
  | .text _ acc => .ok (textItem acc)
  | .quote _ _ => .error (.invalid "unterminated quoted string")
  | _ => .error (.invalid "unclosed action")

/-- The lexer run over the input from state `m`. -/
def lexFrom : LexMode → List Char → Except ParseError (List Item)
  | m, [] => lexEnd m
  | m, c :: rest =>
      match lexStep m c rest with
      | .error e => .error e
      | .ok (items, m') =>
          match lexFrom m' rest with
          | .error e => .error e
          | .ok more => .ok (items ++ more)

/-- The items of a template string. -/
def lex (input : String) : Except ParseError (List Item) :=
  lexFrom (.text false []) input.data

/-! ## Parsing (`text/template/parse/parse.go`) -/

/-- The comparison functions of `text/template/funcs.go` that the templates call. -/
inductive Fn where
  | eq
  | ne
  deriving DecidableEq, Repr

/-- An operand of a command: a field of the data or a string constant. -/
inductive Arg where
  | field (name : String)
  | str (s : String)
  deriving DecidableEq, Repr

/-- A pipeline of one command: a single operand, or a function applied to operands. -/
inductive Pipe where
  | arg (a : Arg)
  | call (fn : Fn) (args : List Arg)
  deriving DecidableEq, Repr

/-- The nodes of a parsed template (`TextNode`, `ActionNode`, `IfNode`). -/
inductive Node where
  | text (s : String)
  | action (p : Pipe)
  | cond (p : Pipe) (thn els : List Node)
  deriving Repr

/-- What an action is, once its words are read. -/
inductive Action where
  | open_ (p : Pipe)
  | else_
  | end_
  | print (p : Pipe)
  deriving DecidableEq, Repr

/-- The operands of a command; an identifier in operand position is outside the fragment. -/
def parseArgs : List Word → Except ParseError (List Arg)
  | [] => .ok []
  | .field n :: ws => (parseArgs ws).map (Arg.field n :: ·)
  | .str s :: ws => (parseArgs ws).map (Arg.str s :: ·)
  | .ident _ :: _ => .error (.outside "identifier as operand")

/-- The words that `text/template` gives a meaning of its own and that the fragment does
not embed: the keywords and constants of the lexer and the predefined functions other than
`eq` and `ne`. -/
def reservedWords : List String :=
  ["block", "break", "continue", "define", "else", "end", "if", "nil", "range", "template",
   "with", "true", "false", "and", "call", "html", "index", "slice", "js", "len", "not", "or",
   "print", "printf", "println", "urlquery", "ge", "gt", "le", "lt"]

/-- The pipeline of an action.  A function name is looked up when the template is parsed,
so a name that is not a function of `text/template` is an error there; a reserved
word, and an operand followed by further words (a call of a method or of a non-function),
are outside the fragment. -/
def parsePipe : List Word → Except ParseError Pipe
  | [] => .error (.invalid "missing value for command")
  | [.field n] => .ok (.arg (.field n))
  | [.str s] => .ok (.arg (.str s))
  | .ident f :: ws =>
      if f = "eq" then (parseArgs ws).map (Pipe.call .eq)
      else if f = "ne" then (parseArgs ws).map (Pipe.call .ne)
      else if reservedWords.contains f then .error (.outside "keyword or function")
      else .error (.invalid "function not defined")
  | _ => .error (.outside "operand with arguments")

/-- The action that a list of words spells. -/
def parseAction : List Word → Except ParseError Action
  | .ident "if" :: ws => (parsePipe ws).map Action.open_
  | [.ident "else"] => .ok .else_
  | [.ident "end"] => .ok .end_
  | ws => (parsePipe ws).map Action.print

/-- An `if` whose `end` has not been read yet: its pipeline, the nodes of its first branch
and, once `else` is read, the nodes of its second branch (both reversed). -/
structure Frame where
  pipe : Pipe
  thn : List Node
  els : Option (List Node)

/-- Add a node to the list being built: the innermost open `if`, or the top level. -/
def pushNode (n : Node) : List Frame → List Node → List Frame × List Node
  | [], top => ([], n :: top)
  | f :: fs, top =>
      match f.els with
      | none => ({ f with thn := n :: f.thn } :: fs, top)
      | some e => ({ f with els := some (n :: e) } :: fs, top)

/-- The parser over the items, with the stack of open `if`s and the top-level nodes read so
far (reversed). -/
def parseItems : List Item → List Frame → List Node → Except ParseError (List Node)
  | [], [], top => .ok top.reverse
  | [], _ :: _, _ => .error (.invalid "unexpected EOF")
  | .text s :: items, stack, top =>
      let (stack', top') := pushNode (.text s) stack top
      parseItems items stack' top'
  | .action ws :: items, stack, top =>
      match parseAction ws with
      | .error e => .error e
      | .ok (.print p) =>
          let (stack', top') := pushNode (.action p) stack top
          parseItems items stack' top'
      | .ok (.open_ p) => parseItems items ({ pipe := p, thn := [], els := none } :: stack) top
      | .ok .else_ =>
          match stack with
          | [] => .error (.invalid "unexpected else")
          | f :: fs =>
              match f.els with
              | none => parseItems items ({ f with els := some [] } :: fs) top
              | some _ => .error (.invalid "unexpected else")
      | .ok .end_ =>
          match stack with
          | [] => .error (.invalid "unexpected end")
          | f :: fs =>
              let (stack', top') :=
                pushNode (.cond f.pipe f.thn.reverse ((f.els.getD []).reverse)) fs top
              parseItems items stack' top'

/-- The tree of a template string: `template.New("").Parse(tmplStr)`. -/
def Parse (tmplStr : String) : Except ParseError (List Node) :=
  match lex tmplStr with
  | .error e => .error e
  | .ok items => parseItems items [] []

/-- The template string lies inside the embedded fragment: `Parse` gives a tree or a
error of `template.Parse`, not a construct it does not embed. -/
def inFragment (tmplStr : String) : Bool :=
  match Parse tmplStr with
  | .error (.outside _) => false
  | _ => true

/-! ## Execution (`text/template/exec.go`) -/

/-- The field of the data: a struct without the field is an execution error. -/
def evalField (data : TmplData) (name : String) : Except String Value :=
  match data.lookup name with
  | some v => .ok v
  | none => .error "can't evaluate field"

/-- The value of an operand. -/
def evalArg (data : TmplData) : Arg → Except String Value
  | .field n => evalField data n
  | .str s => .ok (.str s)

/-- The values of the operands, left to right. -/
def evalArgs (data : TmplData) : List Arg → Except String (List Value)
  | [] => .ok []
  | a :: as =>
      match evalArg data a with
      | .error e => .error e
      | .ok v => (evalArgs data as).map (v :: ·)

/-- The loop of `eq`: the first value against each of the others in turn; values of
different kinds cannot be compared. -/
def eqAny (v1 : Value) : List Value → Except String Bool
  | [] => .ok false
  | v2 :: vs =>
      match v1, v2 with
      | .str a, .str b => if a = b then .ok true else eqAny v1 vs
      | .bool a, .bool b => if a = b then .ok true else eqAny v1 vs
      | _, _ => .error "incompatible types for comparison"

/-- The call of a comparison function on evaluated operands: `eq` wants at least two,
`ne` exactly two. -/
def callFn : Fn → List Value → Except String Value
  | .eq, [] => .error "wrong number of args for eq"
  | .eq, [_] => .error "missing argument for comparison"
  | .eq, v1 :: vs => (eqAny v1 vs).map Value.bool
  | .ne, [v1, v2] => (eqAny v1 [v2]).map fun b => Value.bool (!b)
  | .ne, _ => .error "wrong number of args for ne"

/-- The value of a pipeline. -/
def evalPipe (data : TmplData) : Pipe → Except String Value
  | .arg a => evalArg data a
  | .call fn args =>
      match evalArgs data args with
      | .error e => .error e
      | .ok vs => callFn fn vs

/-- The truth of a value in `if` (`isTrue`): a boolean is itself, a string is true when its
length is positive. -/
def isTrue : Value → Bool
  | .bool b => b
  | .str s => decide (0 < s.length)

/-- The text a value prints as (`printValue`). -/
def printValue : Value → String
  | .str s => s
  | .bool true => "true"
  | .bool false => "false"

mutual
/-- The walk of one node: the buffer after it and the error that stopped it, if any.  Text
is written as it is met, so what was written before an error stays in the buffer. -/
def execNode (data : TmplData) : Node → String → String × Option String
  | .text s, out => (out ++ s, none)
  | .action p, out =>
      match evalPipe data p with
      | .error e => (out, some e)
      | .ok v => (out ++ printValue v, none)
  | .cond p thn els, out =>
      match evalPipe data p with
      | .error e => (out, some e)
      | .ok v => if isTrue v then execList data thn out else execList data els out
/-- The walk of a list of nodes, stopping at the first error. -/
def execList (data : TmplData) : List Node → String → String × Option String
  | [], out => (out, none)
  | n :: ns, out =>
      match execNode data n out with
      | (out', none) => execList data ns out'
      | (out', some e) => (out', some e)
end

/-- The method `tmpl.Execute(&out, tmplData)`: the buffer after the walk and the error. -/
def Execute (tmpl : List Node) (out : String) (tmplData : TmplData) : String × Option String :=
  execList tmplData tmpl out

/-! ## `ExecuteTemplate` -/

/-- The function `ExecuteTemplate`: the buffer `out` and the error.  A parse error returns the
buffer as declared, empty; an execution error returns the buffer that `Execute` wrote into. -/
def ExecuteTemplate (tmplStr : String) (tmplData : TmplData) : String × Option TmplError :=
  let out : String := ""
  match Parse tmplStr with
  | .error err => (out, some (.parse err))
  | .ok tmpl =>
      match Execute tmpl out tmplData with
      | (out, some err) => (out, some (.exec err))
      | (out, none) => (out, none)

/-! ## The constants of `clusterfiles.go` -/

/-- The constant `DockerDaemonConfig`: the docker daemon configuration, fixed text. -/
def DockerDaemonConfig : String :=
  "\x7b\n" ++
  "    \"insecure-registries\": [\"10.22.0.1:5000\"],\n" ++
  "    \"default-runtime\": \"custom\",\n" ++
  "    \"runtimes\": \x7b\n" ++
  "        \"custom\": \x7b \"path\": \"/usr/bin/kube-spawn-runc\" \x7d\n" ++
  "    \x7d,\n" ++
  "    \"storage-driver\": \"overlay2\"\n" ++
  "\x7d\n"

/-- The constant `DockerSystemdDropin`: the systemd drop-in of docker, fixed text. -/
def DockerSystemdDropin : String :=
  "[Service]\n" ++
  "Environment=\"DOCKER_OPTS=--exec-opt native.cgroupdriver=cgroupfs\"\n"

/-- The constant `RktletSystemdUnitTmpl`: the systemd unit of rktlet. -/
def RktletSystemdUnitTmpl : String :=
  "[Unit]\n" ++
  "Description=rktlet: The rkt implementation of a Kubernetes Container Runtime\n" ++
  "Documentation=https://github.com/kubernetes-incubator/rktlet/tree/master/docs\n" ++
  "\n" ++
  "[Service]\n" ++
  "ExecStart=/usr/bin/rktlet --net=\x7b\x7b .CNIPlugin \x7d\x7d\n" ++
  "Restart=always\n" ++
  "StartLimitInterval=0\n" ++
  "RestartSec=10\n" ++
  "\n" ++
  "[Install]\n" ++
  "WantedBy=multi-user.target\n"

/-- The constant `WeaveSystemdNetworkdConfig`, fixed text. -/
def WeaveSystemdNetworkdConfig : String :=
  "[Match]\n" ++
  "Name=weave datapath vethwe*\n" ++
  "\n" ++
  "[Link]\n" ++
  "Unmanaged=yes\n"

/-- The constant `KubespawnBootstrapScriptTmpl`: the bootstrap script of a node. -/
def KubespawnBootstrapScriptTmpl : String :=
  "#!/bin/bash\n" ++
  "\n" ++
  "set -euxo pipefail\n" ++
  "\n" ++
  "echo \"root:root\" | chpasswd\n" ++
  "echo \"core:core\" | chpasswd\n" ++
  "\n" ++
  "systemctl enable kubelet.service\n" ++
  "systemctl enable sshd.service\n" ++
  "\n" ++
  "\x7b\x7b if eq .ContainerRuntime \"docker\" -\x7d\x7dsystemctl start --no-block docker.service\x7b\x7b- end\x7d\x7d\n" ++
  "\x7b\x7b if eq .ContainerRuntime \"rkt\" -\x7d\x7dsystemctl start --no-block rktlet.service\n" ++
  "mkdir -p /usr/lib/rkt/plugins\n" ++
  "ln -s /opt/cni/bin/ /usr/lib/rkt/plugins/net\n" ++
  "ln -sfT /etc/cni/net.d /etc/rkt/net.d\x7b\x7b- end\x7d\x7d\n" ++
  "\n" ++
  "mkdir -p /var/lib/weave\n" ++
  "\n" ++
  "# necessary to prevent docker from being blocked\n" ++
  "systemctl mask systemd-networkd-wait-online.service\n" ++
  "\n" ++
  "[ -f /etc/kubernetes/kubelet.conf ] && kubeadm reset \x7b\x7b.KubeadmResetOptions\x7d\x7d\n" ++
  "systemctl start --no-block kubelet.service\n"

/-- The constant `KubeletSystemdDropinTmpl`: the systemd drop-in of the kubelet. -/
def KubeletSystemdDropinTmpl : String :=
  "[Service]\n" ++
  "Environment=\"KUBELET_CGROUP_ARGS=--cgroup-driver=\x7b\x7b if .UseLegacyCgroupDriver \x7d\x7dcgroupfs\x7b\x7belse\x7d\x7dsystemd\x7b\x7bend\x7d\x7d\"\n" ++
  "Environment=\"KUBELET_EXTRA_ARGS=\\\n" ++
  "\x7b\x7b if ne .ContainerRuntime \"docker\" -\x7d\x7d--container-runtime=remote \\\n" ++
  "--container-runtime-endpoint=\x7b\x7b.RuntimeEndpoint\x7d\x7d \\\n" ++
  "--runtime-request-timeout=15m \x7b\x7b- end\x7d\x7d \\\n" ++
  "--enforce-node-allocatable= \\\n" ++
  "--eviction-hard= \\\n" ++
  "--cgroups-per-qos=false \\\n" ++
  "--fail-swap-on=false \\\n" ++
  "--authentication-token-webhook\"\n"

/-- The constant `KubeletConfigTmpl`: the kubelet configuration. -/
def KubeletConfigTmpl : String :=
  "kind: KubeletConfiguration\n" ++
  "apiVersion: kubelet.config.k8s.io/v1beta1\n" ++
  "authentication:\n" ++
  "  webhook:\n" ++
  "    enabled: true\n" ++
  "cgroupDriver: \x7b\x7b if .UseLegacyCgroupDriver \x7d\x7dcgroupfs\x7b\x7belse\x7d\x7dsystemd\x7b\x7bend\x7d\x7d\n" ++
  "cgroupsPerQOS: false\n" ++
  "enforceNodeAllocatable:\n" ++
  "evictionHard:\n" ++
  "failSwapOn: false\n" ++
  "\x7b\x7b if ne .ContainerRuntime \"docker\" -\x7d\x7d\n" ++
  "runtimeRequestTimeout: 15m\n" ++
  "NodeRegistration:\n" ++
  "  CRISocket: \x7b\x7b.RuntimeEndpoint\x7d\x7d\n" ++
  "\x7b\x7b- end\x7d\x7d\n"

/-- The constant `KubeadmConfigTmpl`: the kubeadm configuration. -/
def KubeadmConfigTmpl : String :=
  "apiVersion: kubeadm.k8s.io/v1alpha1\n" ++
  "authorizationMode: AlwaysAllow\n" ++
  "apiServerExtraArgs:\n" ++
  "  insecure-port: \"8080\"\n" ++
  "controllerManagerExtraArgs:\n" ++
  "kubernetesVersion: \x7b\x7b.KubernetesVersion\x7d\x7d\n" ++
  "schedulerExtraArgs:\n" ++
  "\x7b\x7bif .ClusterCIDR -\x7d\x7d\n" ++
  "kubeProxy:\n" ++
  "  config:\n" ++
  "    clusterCIDR: \x7b\x7b.ClusterCIDR\x7d\x7d\n" ++
  "\x7b\x7b- end \x7d\x7d\n" ++
  "\x7b\x7bif .PodNetworkCIDR -\x7d\x7d\n" ++
  "networking:\n" ++
  "  podSubnet: \x7b\x7b.PodNetworkCIDR\x7d\x7d\n" ++
  "\x7b\x7b- end \x7d\x7d\n" ++
  "\x7b\x7bif .HyperkubeImage -\x7d\x7d\n" ++
  "unifiedControlPlaneImage: \x7b\x7b.HyperkubeImage\x7d\x7d\n" ++
  "\x7b\x7b- end \x7d\x7d\n"

/-- The constant `KubeSpawnRuncWrapperScript`, fixed text. -/
def KubeSpawnRuncWrapperScript : String :=
  "#!/bin/bash\n" ++
  "# TODO: the docker-runc wrapper ensures --no-new-keyring is\n" ++
  "# set, otherwise Docker will attempt to use keyring syscalls\n" ++
  "# which are not allowed in systemd-nspawn containers. It can\n" ++
  "# be removed once we require systemd v235 or later. We then\n" ++
  "# will be able to whitelist the required syscalls; see:\n" ++
  "# https://github.com/systemd/systemd/pull/6798\n" ++
  "set -euo pipefail\n" ++
  "args=()\n" ++
  "for arg in \"$\x7b@\x7d\"; do\n" ++
  "\targs+=(\"$\x7barg\x7d\")\n" ++
  "\tif [[ \"$\x7barg\x7d\" == \"create\" ]] || [[ \"$\x7barg\x7d\" == \"run\" ]]; then\n" ++
  "\t\targs+=(\"--no-new-keyring\")\n" ++
  "\tfi\n" ++
  "done\n" ++
  "exec docker-runc \"$\x7bargs[@]\x7d\"\n"

/-! ## The Parameter Set -/

/-- Modelled from the spec: the struct handed to the templates is declared outside
`clusterfiles.go`; its fields are the Parameter Set of the specification, with the names the
templates use. -/
structure ParameterSet where
  ContainerRuntime : String
  UseLegacyCgroupDriver : Bool
  RuntimeEndpoint : String
  CNIPlugin : String
  KubeadmResetOptions : String
  KubernetesVersion : String
  ClusterCIDR : String
  PodNetworkCIDR : String
  HyperkubeImage : String
  deriving DecidableEq, Repr

/-- The Parameter Set as template data: its fields by name. -/
def ParameterSet.toData (p : ParameterSet) : TmplData :=
  [("ContainerRuntime", .str p.ContainerRuntime),
   ("UseLegacyCgroupDriver", .bool p.UseLegacyCgroupDriver),
   ("RuntimeEndpoint", .str p.RuntimeEndpoint),
   ("CNIPlugin", .str p.CNIPlugin),
   ("KubeadmResetOptions", .str p.KubeadmResetOptions),
   ("KubernetesVersion", .str p.KubernetesVersion),
   ("ClusterCIDR", .str p.ClusterCIDR),
   ("PodNetworkCIDR", .str p.PodNetworkCIDR),
   ("HyperkubeImage", .str p.HyperkubeImage)]


/-! ## Vocabulary of the statements -/

/-- The occurrence test behind Go's `strings.Contains`, on character lists: `needle` starts
at some position of the list. -/
def occursIn (needle : List Char) : List Char → Bool
  | [] => needle.isEmpty
  | c :: cs => hasPrefix (c :: cs) needle || occursIn needle cs

/-- Go's `strings.Contains s sub`: `sub` occurs in `s` as a contiguous run of characters. -/
def Contains (s sub : String) : Prop :=
  occursIn sub.data s.data = true

instance (s sub : String) : Decidable (Contains s sub) :=
  inferInstanceAs (Decidable (occursIn sub.data s.data = true))

/-- No occurrence of `needle` can begin inside `left` and run past its end: none of the
proper non-empty prefixes of `needle` ends `left`. -/
def noOverlap (needle left : List Char) : Bool :=
  (List.range needle.length).all fun k =>
    k = 0 || !(hasPrefix left.reverse (needle.take k).reverse)

/-- No occurrence of `needle` can run into `right` from before it: `right` begins with a
character that `needle` does not have. -/
def startsOutside (needle : List Char) : List Char → Bool
  | [] => false
  | c :: _ => !(needle.elem c)

/-- Every boundary between two neighbouring pieces is closed to `needle`, from the left
piece or from the right one. -/
def Guarded (needle : List Char) : List (List Char) → Prop
  | x :: y :: rest =>
      (noOverlap needle x = true ∨ startsOutside needle y = true) ∧ Guarded needle (y :: rest)
  | _ => True

/-- The keys of the optional blocks of the kubeadm configuration. -/
def optionalBlockKeys : List String :=
  ["kubeProxy:", "clusterCIDR:", "networking:", "podSubnet:", "unifiedControlPlaneImage:"]

/-- The texts looked for in the bootstrap script: the start of either runtime service, the
two CNI symlink commands of rkt, and the name of the docker service. -/
def bootstrapNeedles : List String :=
  ["systemctl start --no-block docker.service", "systemctl start --no-block rktlet.service",
   "ln -s /opt/cni/bin/ /usr/lib/rkt/plugins/net", "ln -sfT /etc/cni/net.d /etc/rkt/net.d",
   "docker.service"]

/-- The templates of `clusterfiles.go`: the constants that are rendered from a Parameter
Set. -/
def templates : List String :=
  [RktletSystemdUnitTmpl, KubespawnBootstrapScriptTmpl, KubeletSystemdDropinTmpl,
   KubeletConfigTmpl, KubeadmConfigTmpl]

/-- The lines of a text: the runs of characters between its newlines.  A text that ends in
a newline has an empty last line. -/
def splitLines : List Char → List (List Char)
  | [] => [[]]
  | c :: cs =>
      if c = '\n' then [] :: splitLines cs
      else
        match splitLines cs with
        | [] => [[c]]
        | l :: ls => (c :: l) :: ls

/-- The lines of two texts written one after the other, from the lines of each: the last
line of the first continues into the first line of the second. -/
def glue : List (List Char) → List (List Char) → List (List Char)
  | [], ys => ys
  | [l], [] => [l]
  | [l], h :: t => (l ++ h) :: t
  | l :: m :: ls, ys => l :: glue (m :: ls) ys

/-- The lines of a string. -/
def lines (s : String) : List String :=
  (splitLines s.data).map String.mk

/-- The line ends with a backslash, the line continuation of a systemd value. -/
def EndsWithBackslash (l : String) : Prop :=
  l.data.getLast? = some '\\'

instance (l : String) : Decidable (EndsWithBackslash l) :=
  inferInstanceAs (Decidable (l.data.getLast? = some '\\'))

/-! ## Concrete Parameter Sets -/

/-- The end-to-end example of the specification: rkt on its socket, modern cgroup driver. -/
def rktExample : ParameterSet :=
  { ContainerRuntime := "rkt", UseLegacyCgroupDriver := false,
    RuntimeEndpoint := "/run/rktlet.sock", CNIPlugin := "ptp", KubeadmResetOptions := "",
    KubernetesVersion := "v1.10.0", ClusterCIDR := "", PodNetworkCIDR := "10.32.0.0/12",
    HyperkubeImage := "" }

/-- A docker node with the modern cgroup driver and every optional field set. -/
def dockerExample : ParameterSet :=
  { ContainerRuntime := "docker", UseLegacyCgroupDriver := false,
    RuntimeEndpoint := "", CNIPlugin := "bridge", KubeadmResetOptions := "--force",
    KubernetesVersion := "v1.10.0", ClusterCIDR := "10.96.0.0/12",
    PodNetworkCIDR := "10.32.0.0/12", HyperkubeImage := "k8s.gcr.io/hyperkube:v1.10.0" }

/-- The docker node with the legacy cgroup driver. -/
def legacyDockerExample : ParameterSet :=
  { dockerExample with UseLegacyCgroupDriver := true }

/-- The rkt example with no optional field of the kubeadm configuration set. -/
def bareExample : ParameterSet :=
  { rktExample with PodNetworkCIDR := "" }

/-- The rkt example with the runtime endpoint left out. -/
def rktNoEndpoint : ParameterSet :=
  { rktExample with RuntimeEndpoint := "" }

/-! ## Occurrences in concatenated text -/
/-- The test `hasPrefix` decides the prefix relation. -/
theorem hasPrefix_iff (l p : List Char) : hasPrefix l p = true ↔ p <+: l := by
  induction p generalizing l with
  | nil => simp [hasPrefix]
  | cons a p ih =>
    cases l with
    | nil => simp [hasPrefix]
    | cons c cs =>
      simp only [hasPrefix, Bool.and_eq_true, decide_eq_true_eq, ih, List.cons_prefix_cons]
      constructor
      · rintro ⟨h1, h2⟩; exact ⟨h1.symm, h2⟩
      · rintro ⟨h1, h2⟩; exact ⟨h1.symm, h2⟩

/-- The test `occursIn` decides the infix relation. -/
theorem occursIn_iff (n l : List Char) : occursIn n l = true ↔ n <:+: l := by
  induction l with
  | nil => simp [occursIn]
  | cons c cs ih =>
    simp only [occursIn, Bool.or_eq_true, hasPrefix_iff, ih, List.infix_cons_iff]

/-- What `noOverlap` says: no split of the needle into two non-empty parts has its first
part at the end of the left text. -/
theorem noOverlap_spec {n x : List Char} (h : noOverlap n x = true) {s t : List Char}
    (hn : n = s ++ t) (hs : s ≠ []) (ht : t ≠ []) : ¬ s <:+ x := by
  intro hsuf
  have hk : s.length < n.length := by
    subst hn
    have : 0 < t.length := List.length_pos.mpr ht
    simp only [List.length_append]; omega
  have h0 : s.length ≠ 0 := fun h0 => hs (List.length_eq_zero.mp h0)
  have := List.all_eq_true.mp h s.length (List.mem_range.mpr hk)
  have htake : n.take s.length = s := by subst hn; simp
  simp only [h0, decide_False, Bool.false_or, htake, Bool.not_eq_true', ← Bool.not_eq_true,
    hasPrefix_iff, List.reverse_prefix] at this
  exact this hsuf

/-- An occurrence in `x ++ r` lies in `x` or in `r` when it cannot cross from `x`. -/
theorem infix_append_of_noOverlap {n x r : List Char} (h : noOverlap n x = true) :
    n <:+: x ++ r ↔ n <:+: x ∨ n <:+: r := by
  constructor
  · rintro ⟨pre, post, heq⟩
    rw [List.append_assoc, List.append_eq_append_iff] at heq
    rcases heq with ⟨a, hx, ha⟩ | ⟨c, hpre, hr⟩
    · -- the occurrence starts inside `x`
      rw [List.append_eq_append_iff] at ha
      rcases ha with ⟨b, ha', hb⟩ | ⟨b, hn, hr⟩
      · -- here `a = n ++ b`
        left; exact ⟨pre, b, by rw [hx, ha', List.append_assoc]⟩
      · by_cases hb : b = []
        · left; subst hb; simp at hn; subst hn; exact ⟨pre, [], by simp [hx]⟩
        · by_cases ha0 : a = []
          · right; subst ha0; simp at hn; subst hn; exact ⟨[], post, by simp [hr]⟩
          · exact absurd ⟨pre, hx.symm⟩ (noOverlap_spec h hn ha0 hb)
    · right; exact ⟨c, post, by rw [hr, List.append_assoc]⟩
  · rintro (h | h)
    · exact List.IsInfix.trans h (List.infix_append' [] x r |>.trans (by simp))
    · exact List.IsInfix.trans h (List.suffix_append x r).isInfix

/-- An occurrence in `x ++ y` lies in `x` or in `y` when `y` begins with a character the
needle does not have. -/
theorem infix_append_of_startsOutside {n x y : List Char} (h : startsOutside n y = true) :
    n <:+: x ++ y ↔ n <:+: x ∨ n <:+: y := by
  constructor
  · rintro ⟨pre, post, heq⟩
    cases y with
    | nil => simp [startsOutside] at h
    | cons c y =>
      have hc : c ∉ n := by simpa [startsOutside] using h
      rw [List.append_assoc, List.append_eq_append_iff] at heq
      rcases heq with ⟨a, hx, ha⟩ | ⟨b, hpre, hr⟩
      · rw [List.append_eq_append_iff] at ha
        rcases ha with ⟨b, ha', _⟩ | ⟨b, hn, hr⟩
        · left; exact ⟨pre, b, by rw [hx, ha', List.append_assoc]⟩
        · cases b with
          | nil => left; simp at hn; subst hn; exact ⟨pre, [], by simp [hx]⟩
          | cons d b =>
            simp only [List.cons_append, List.cons.injEq] at hr
            exact absurd (by rw [hn, hr.1]; simp) hc
      · right; exact ⟨b, post, by rw [hr, List.append_assoc]⟩
  · rintro (h | h)
    · exact List.IsInfix.trans h (List.prefix_append x y).isInfix
    · exact List.IsInfix.trans h (List.suffix_append x y).isInfix

/-- The first character of `y ++ r` is that of `y`. -/
theorem startsOutside_append {n y : List Char} (r : List Char) (h : startsOutside n y = true) :
    startsOutside n (y ++ r) = true := by
  cases y with
  | nil => simp [startsOutside] at h
  | cons c y => simpa [startsOutside] using h

/-- An occurrence in a concatenation of pieces with closed boundaries lies in one piece. -/
theorem infix_flatten_of_guarded {n : List Char} (hn : n ≠ []) :
    ∀ pieces : List (List Char), Guarded n pieces →
      (n <:+: pieces.flatten ↔ ∃ x ∈ pieces, n <:+: x)
  | [], _ => by simp [hn]
  | [x], _ => by simp
  | x :: y :: rest, hg => by
    have ih := infix_flatten_of_guarded hn (y :: rest) hg.2
    have hsplit : n <:+: x ++ (y :: rest).flatten ↔ n <:+: x ∨ n <:+: (y :: rest).flatten := by
      rcases hg.1 with h | h
      · exact infix_append_of_noOverlap h
      · rw [List.flatten_cons]
        exact infix_append_of_startsOutside (startsOutside_append _ h)
    rw [List.flatten_cons, hsplit, ih]
    simp


/-- The predicate `Contains` is the infix relation on the characters. -/
theorem contains_iff (s n : String) : Contains s n ↔ n.data <:+: s.data :=
  occursIn_iff n.data s.data

/-- What occurs in `a` occurs in `a ++ b`. -/
theorem contains_append_left {a n : String} (b : String) (h : Contains a n) :
    Contains (a ++ b) n := by
  rw [contains_iff] at h ⊢
  rw [String.data_append]
  exact h.trans (List.prefix_append _ _).isInfix

/-- What occurs in `b` occurs in `a ++ b`. -/
theorem contains_append_right {b n : String} (a : String) (h : Contains b n) :
    Contains (a ++ b) n := by
  rw [contains_iff] at h ⊢
  rw [String.data_append]
  exact h.trans (List.suffix_append _ _).isInfix

/-- A text `v` between the end `a` of what precedes it and the start `b` of what follows. -/
theorem contains_sandwich {k t a b : String} (v : String)
    (hk : hasPrefix k.data.reverse a.data.reverse = true)
    (ht : hasPrefix t.data b.data = true) :
    Contains (k ++ v ++ t) (a ++ v ++ b) := by
  rw [contains_iff]
  rw [hasPrefix_iff, List.reverse_prefix] at hk
  rw [hasPrefix_iff] at ht
  obtain ⟨x, hx⟩ := hk
  obtain ⟨y, hy⟩ := ht
  refine ⟨x, y, ?_⟩
  simp only [String.data_append, ← hx, ← hy, List.append_assoc]

/-- The occurrences in a string cut into pieces with closed boundaries. -/
theorem contains_pieces {n s : String} (pieces : List String)
    (hs : s.data = (pieces.map String.data).flatten) (hn : n.data ≠ [])
    (hg : Guarded n.data (pieces.map String.data)) :
    Contains s n ↔ ∃ x ∈ pieces, Contains x n := by
  rw [contains_iff, hs, infix_flatten_of_guarded hn _ hg]
  simp [contains_iff]

/-! ## The parsed templates -/

theorem lex_RktletSystemdUnitTmpl :
    lex RktletSystemdUnitTmpl = .ok
      [.text "[Unit]\nDescription=rktlet: The rkt implementation of a Kubernetes Container Runtime\nDocumentation=https://github.com/kubernetes-incubator/rktlet/tree/master/docs\n\n[Service]\nExecStart=/usr/bin/rktlet --net=",
       .action [.field "CNIPlugin"],
       .text "\nRestart=always\nStartLimitInterval=0\nRestartSec=10\n\n[Install]\nWantedBy=multi-user.target\n"] := by
  decide!

theorem Parse_RktletSystemdUnitTmpl :
    Parse RktletSystemdUnitTmpl = .ok
      [.text "[Unit]\nDescription=rktlet: The rkt implementation of a Kubernetes Container Runtime\nDocumentation=https://github.com/kubernetes-incubator/rktlet/tree/master/docs\n\n[Service]\nExecStart=/usr/bin/rktlet --net=",
       .action (.arg (.field "CNIPlugin")),
       .text "\nRestart=always\nStartLimitInterval=0\nRestartSec=10\n\n[Install]\nWantedBy=multi-user.target\n"] := by
  unfold Parse
  rw [lex_RktletSystemdUnitTmpl]
  rfl

theorem lex_KubespawnBootstrapScriptTmpl :
    lex KubespawnBootstrapScriptTmpl = .ok
      [.text "#!/bin/bash\n\nset -euxo pipefail\n\necho \"root:root\" | chpasswd\necho \"core:core\" | chpasswd\n\nsystemctl enable kubelet.service\nsystemctl enable sshd.service\n\n",
       .action [.ident "if", .ident "eq", .field "ContainerRuntime", .str "docker"],
       .text "systemctl start --no-block docker.service",
       .action [.ident "end"],
       .text "\n",
       .action [.ident "if", .ident "eq", .field "ContainerRuntime", .str "rkt"],
       .text "systemctl start --no-block rktlet.service\nmkdir -p /usr/lib/rkt/plugins\nln -s /opt/cni/bin/ /usr/lib/rkt/plugins/net\nln -sfT /etc/cni/net.d /etc/rkt/net.d",
       .action [.ident "end"],
       .text "\n\nmkdir -p /var/lib/weave\n\n# necessary to prevent docker from being blocked\nsystemctl mask systemd-networkd-wait-online.service\n\n[ -f /etc/kubernetes/kubelet.conf ] && kubeadm reset ",
       .action [.field "KubeadmResetOptions"],
       .text "\nsystemctl start --no-block kubelet.service\n"] := by
  decide!

theorem Parse_KubespawnBootstrapScriptTmpl :
    Parse KubespawnBootstrapScriptTmpl = .ok
      [.text "#!/bin/bash\n\nset -euxo pipefail\n\necho \"root:root\" | chpasswd\necho \"core:core\" | chpasswd\n\nsystemctl enable kubelet.service\nsystemctl enable sshd.service\n\n",
       .cond (.call .eq [.field "ContainerRuntime", .str "docker"])
      [.text "systemctl start --no-block docker.service"]
      [],
       .text "\n",
       .cond (.call .eq [.field "ContainerRuntime", .str "rkt"])
      [.text "systemctl start --no-block rktlet.service\nmkdir -p /usr/lib/rkt/plugins\nln -s /opt/cni/bin/ /usr/lib/rkt/plugins/net\nln -sfT /etc/cni/net.d /etc/rkt/net.d"]
      [],
       .text "\n\nmkdir -p /var/lib/weave\n\n# necessary to prevent docker from being blocked\nsystemctl mask systemd-networkd-wait-online.service\n\n[ -f /etc/kubernetes/kubelet.conf ] && kubeadm reset ",
       .action (.arg (.field "KubeadmResetOptions")),
       .text "\nsystemctl start --no-block kubelet.service\n"] := by
  unfold Parse
  rw [lex_KubespawnBootstrapScriptTmpl]
  rfl

theorem lex_KubeletSystemdDropinTmpl :
    lex KubeletSystemdDropinTmpl = .ok
      [.text "[Service]\nEnvironment=\"KUBELET_CGROUP_ARGS=--cgroup-driver=",
       .action [.ident "if", .field "UseLegacyCgroupDriver"],
       .text "cgroupfs",
       .action [.ident "else"],
       .text "systemd",
       .action [.ident "end"],
       .text "\"\nEnvironment=\"KUBELET_EXTRA_ARGS=\\\n",
       .action [.ident "if", .ident "ne", .field "ContainerRuntime", .str "docker"],
       .text "--container-runtime=remote \\\n--container-runtime-endpoint=",
       .action [.field "RuntimeEndpoint"],
       .text " \\\n--runtime-request-timeout=15m",
       .action [.ident "end"],
       .text " \\\n--enforce-node-allocatable= \\\n--eviction-hard= \\\n--cgroups-per-qos=false \\\n--fail-swap-on=false \\\n--authentication-token-webhook\"\n"] := by
  decide!

theorem Parse_KubeletSystemdDropinTmpl :
    Parse KubeletSystemdDropinTmpl = .ok
      [.text "[Service]\nEnvironment=\"KUBELET_CGROUP_ARGS=--cgroup-driver=",
       .cond (.arg (.field "UseLegacyCgroupDriver"))
      [.text "cgroupfs"]
      [.text "systemd"],
       .text "\"\nEnvironment=\"KUBELET_EXTRA_ARGS=\\\n",
       .cond (.call .ne [.field "ContainerRuntime", .str "docker"])
      [.text "--container-runtime=remote \\\n--container-runtime-endpoint=",
       .action (.arg (.field "RuntimeEndpoint")),
       .text " \\\n--runtime-request-timeout=15m"]
      [],
       .text " \\\n--enforce-node-allocatable= \\\n--eviction-hard= \\\n--cgroups-per-qos=false \\\n--fail-swap-on=false \\\n--authentication-token-webhook\"\n"] := by
  unfold Parse
  rw [lex_KubeletSystemdDropinTmpl]
  rfl

theorem lex_KubeletConfigTmpl :
    lex KubeletConfigTmpl = .ok
      [.text "kind: KubeletConfiguration\napiVersion: kubelet.config.k8s.io/v1beta1\nauthentication:\n  webhook:\n    enabled: true\ncgroupDriver: ",
       .action [.ident "if", .field "UseLegacyCgroupDriver"],
       .text "cgroupfs",
       .action [.ident "else"],
       .text "systemd",
       .action [.ident "end"],
       .text "\ncgroupsPerQOS: false\nenforceNodeAllocatable:\nevictionHard:\nfailSwapOn: false\n",
       .action [.ident "if", .ident "ne", .field "ContainerRuntime", .str "docker"],
       .text "runtimeRequestTimeout: 15m\nNodeRegistration:\n  CRISocket: ",
       .action [.field "RuntimeEndpoint"],
       .action [.ident "end"],
       .text "\n"] := by
  decide!

theorem Parse_KubeletConfigTmpl :
    Parse KubeletConfigTmpl = .ok
      [.text "kind: KubeletConfiguration\napiVersion: kubelet.config.k8s.io/v1beta1\nauthentication:\n  webhook:\n    enabled: true\ncgroupDriver: ",
       .cond (.arg (.field "UseLegacyCgroupDriver"))
      [.text "cgroupfs"]
      [.text "systemd"],
       .text "\ncgroupsPerQOS: false\nenforceNodeAllocatable:\nevictionHard:\nfailSwapOn: false\n",
       .cond (.call .ne [.field "ContainerRuntime", .str "docker"])
      [.text "runtimeRequestTimeout: 15m\nNodeRegistration:\n  CRISocket: ",
       .action (.arg (.field "RuntimeEndpoint"))]
      [],
       .text "\n"] := by
  unfold Parse
  rw [lex_KubeletConfigTmpl]
  rfl

theorem lex_KubeadmConfigTmpl :
    lex KubeadmConfigTmpl = .ok
      [.text "apiVersion: kubeadm.k8s.io/v1alpha1\nauthorizationMode: AlwaysAllow\napiServerExtraArgs:\n  insecure-port: \"8080\"\ncontrollerManagerExtraArgs:\nkubernetesVersion: ",
       .action [.field "KubernetesVersion"],
       .text "\nschedulerExtraArgs:\n",
       .action [.ident "if", .field "ClusterCIDR"],
       .text "kubeProxy:\n  config:\n    clusterCIDR: ",
       .action [.field "ClusterCIDR"],
       .action [.ident "end"],
       .text "\n",
       .action [.ident "if", .field "PodNetworkCIDR"],
       .text "networking:\n  podSubnet: ",
       .action [.field "PodNetworkCIDR"],
       .action [.ident "end"],
       .text "\n",
       .action [.ident "if", .field "HyperkubeImage"],
       .text "unifiedControlPlaneImage: ",
       .action [.field "HyperkubeImage"],
       .action [.ident "end"],
       .text "\n"] := by
  decide!

theorem Parse_KubeadmConfigTmpl :
    Parse KubeadmConfigTmpl = .ok
      [.text "apiVersion: kubeadm.k8s.io/v1alpha1\nauthorizationMode: AlwaysAllow\napiServerExtraArgs:\n  insecure-port: \"8080\"\ncontrollerManagerExtraArgs:\nkubernetesVersion: ",
       .action (.arg (.field "KubernetesVersion")),
       .text "\nschedulerExtraArgs:\n",
       .cond (.arg (.field "ClusterCIDR"))
      [.text "kubeProxy:\n  config:\n    clusterCIDR: ",
       .action (.arg (.field "ClusterCIDR"))]
      [],
       .text "\n",
       .cond (.arg (.field "PodNetworkCIDR"))
      [.text "networking:\n  podSubnet: ",
       .action (.arg (.field "PodNetworkCIDR"))]
      [],
       .text "\n",
       .cond (.arg (.field "HyperkubeImage"))
      [.text "unifiedControlPlaneImage: ",
       .action (.arg (.field "HyperkubeImage"))]
      [],
       .text "\n"] := by
  unfold Parse
  rw [lex_KubeadmConfigTmpl]
  rfl


/-! ## The fields of a Parameter Set, as the templates read them -/

theorem field_ContainerRuntime (p : ParameterSet) :
    evalField p.toData "ContainerRuntime" = .ok (.str p.ContainerRuntime) := rfl

theorem field_UseLegacyCgroupDriver (p : ParameterSet) :
    evalField p.toData "UseLegacyCgroupDriver" = .ok (.bool p.UseLegacyCgroupDriver) := rfl

theorem field_RuntimeEndpoint (p : ParameterSet) :
    evalField p.toData "RuntimeEndpoint" = .ok (.str p.RuntimeEndpoint) := rfl

theorem field_CNIPlugin (p : ParameterSet) :
    evalField p.toData "CNIPlugin" = .ok (.str p.CNIPlugin) := rfl

theorem field_KubeadmResetOptions (p : ParameterSet) :
    evalField p.toData "KubeadmResetOptions" = .ok (.str p.KubeadmResetOptions) := rfl

theorem field_KubernetesVersion (p : ParameterSet) :
    evalField p.toData "KubernetesVersion" = .ok (.str p.KubernetesVersion) := rfl

theorem field_ClusterCIDR (p : ParameterSet) :
    evalField p.toData "ClusterCIDR" = .ok (.str p.ClusterCIDR) := rfl

theorem field_PodNetworkCIDR (p : ParameterSet) :
    evalField p.toData "PodNetworkCIDR" = .ok (.str p.PodNetworkCIDR) := rfl

theorem field_HyperkubeImage (p : ParameterSet) :
    evalField p.toData "HyperkubeImage" = .ok (.str p.HyperkubeImage) := rfl

/-- A string is true in `if` exactly when it is not the empty string. -/
theorem isTrue_str (s : String) : isTrue (.str s) = decide (s ≠ "") := by
  cases s with
  | mk l =>
    cases l with
    | nil => rfl
    | cons c cs =>
      have h : (String.mk (c :: cs)) ≠ "" := by
        intro h; exact absurd (congrArg String.data h) (by simp)
      simp [isTrue, h, String.length]

/-! ## The rendered text of each template, in closed form -/

theorem render_RktletSystemdUnitTmpl (p : ParameterSet) :
    ExecuteTemplate RktletSystemdUnitTmpl p.toData =
      ("[Unit]\nDescription=rktlet: The rkt implementation of a Kubernetes Container Runtime\nDocumentation=https://github.com/kubernetes-incubator/rktlet/tree/master/docs\n\n[Service]\nExecStart=/usr/bin/rktlet --net="
        ++ p.CNIPlugin
        ++ "\nRestart=always\nStartLimitInterval=0\nRestartSec=10\n\n[Install]\nWantedBy=multi-user.target\n",
       none) := by
  simp only [ExecuteTemplate, Parse_RktletSystemdUnitTmpl, Execute, execList, execNode, evalPipe,
    evalArg, field_CNIPlugin, printValue, String.empty_append]

theorem render_KubespawnBootstrapScriptTmpl (p : ParameterSet) :
    ExecuteTemplate KubespawnBootstrapScriptTmpl p.toData =
      ("#!/bin/bash\n\nset -euxo pipefail\n\necho \"root:root\" | chpasswd\necho \"core:core\" | chpasswd\n\nsystemctl enable kubelet.service\nsystemctl enable sshd.service\n\n"
        ++ (if p.ContainerRuntime = "docker" then "systemctl start --no-block docker.service"
            else "")
        ++ "\n"
        ++ (if p.ContainerRuntime = "rkt" then
              "systemctl start --no-block rktlet.service\nmkdir -p /usr/lib/rkt/plugins\nln -s /opt/cni/bin/ /usr/lib/rkt/plugins/net\nln -sfT /etc/cni/net.d /etc/rkt/net.d"
            else "")
        ++ "\n\nmkdir -p /var/lib/weave\n\n# necessary to prevent docker from being blocked\nsystemctl mask systemd-networkd-wait-online.service\n\n[ -f /etc/kubernetes/kubelet.conf ] && kubeadm reset "
        ++ p.KubeadmResetOptions
        ++ "\nsystemctl start --no-block kubelet.service\n",
       none) := by
  simp only [ExecuteTemplate, Parse_KubespawnBootstrapScriptTmpl, Execute, execList, execNode,
    evalPipe, evalArg, evalArgs, callFn, eqAny, field_ContainerRuntime,
    field_KubeadmResetOptions, printValue, String.empty_append, Except.map]
  have hdr : ¬ ("docker" : String) = "rkt" := by decide
  have hrd : ¬ ("rkt" : String) = "docker" := by decide
  by_cases hd : p.ContainerRuntime = "docker" <;> by_cases hr : p.ContainerRuntime = "rkt" <;>
    simp only [hd, hr, hdr, hrd, isTrue, Bool.not_true, Bool.not_false, decide_True, decide_False,
      if_true, if_false, Bool.false_eq_true, String.append_assoc, String.append_empty,
      String.empty_append, reduceCtorEq]

theorem render_KubeletSystemdDropinTmpl (p : ParameterSet) :
    ExecuteTemplate KubeletSystemdDropinTmpl p.toData =
      ("[Service]\nEnvironment=\"KUBELET_CGROUP_ARGS=--cgroup-driver="
        ++ (if p.UseLegacyCgroupDriver then "cgroupfs" else "systemd")
        ++ "\"\nEnvironment=\"KUBELET_EXTRA_ARGS=\\\n"
        ++ (if p.ContainerRuntime = "docker" then ""
            else "--container-runtime=remote \\\n--container-runtime-endpoint="
              ++ p.RuntimeEndpoint ++ " \\\n--runtime-request-timeout=15m")
        ++ " \\\n--enforce-node-allocatable= \\\n--eviction-hard= \\\n--cgroups-per-qos=false \\\n--fail-swap-on=false \\\n--authentication-token-webhook\"\n",
       none) := by
  simp only [ExecuteTemplate, Parse_KubeletSystemdDropinTmpl, Execute, execList, execNode,
    evalPipe, evalArg, evalArgs, callFn, eqAny, field_ContainerRuntime,
    field_UseLegacyCgroupDriver, field_RuntimeEndpoint, printValue, String.empty_append,
    Except.map]
  by_cases hd : p.ContainerRuntime = "docker" <;> cases p.UseLegacyCgroupDriver <;>
    simp only [hd, isTrue, Bool.not_true, Bool.not_false, decide_True, decide_False,
      if_true, if_false, Bool.false_eq_true, String.append_assoc, String.append_empty,
      String.empty_append]

theorem render_KubeletConfigTmpl (p : ParameterSet) :
    ExecuteTemplate KubeletConfigTmpl p.toData =
      ("kind: KubeletConfiguration\napiVersion: kubelet.config.k8s.io/v1beta1\nauthentication:\n  webhook:\n    enabled: true\ncgroupDriver: "
        ++ (if p.UseLegacyCgroupDriver then "cgroupfs" else "systemd")
        ++ "\ncgroupsPerQOS: false\nenforceNodeAllocatable:\nevictionHard:\nfailSwapOn: false\n"
        ++ (if p.ContainerRuntime = "docker" then ""
            else "runtimeRequestTimeout: 15m\nNodeRegistration:\n  CRISocket: "
              ++ p.RuntimeEndpoint)
        ++ "\n",
       none) := by
  simp only [ExecuteTemplate, Parse_KubeletConfigTmpl, Execute, execList, execNode,
    evalPipe, evalArg, evalArgs, callFn, eqAny, field_ContainerRuntime,
    field_UseLegacyCgroupDriver, field_RuntimeEndpoint, printValue, String.empty_append,
    Except.map]
  by_cases hd : p.ContainerRuntime = "docker" <;> cases p.UseLegacyCgroupDriver <;>
    simp only [hd, isTrue, Bool.not_true, Bool.not_false, decide_True, decide_False,
      if_true, if_false, Bool.false_eq_true, String.append_assoc, String.append_empty,
      String.empty_append]

theorem render_KubeadmConfigTmpl (p : ParameterSet) :
    ExecuteTemplate KubeadmConfigTmpl p.toData =
      ("apiVersion: kubeadm.k8s.io/v1alpha1\nauthorizationMode: AlwaysAllow\napiServerExtraArgs:\n  insecure-port: \"8080\"\ncontrollerManagerExtraArgs:\nkubernetesVersion: "
        ++ p.KubernetesVersion
        ++ "\nschedulerExtraArgs:\n"
        ++ (if p.ClusterCIDR = "" then ""
            else "kubeProxy:\n  config:\n    clusterCIDR: " ++ p.ClusterCIDR)
        ++ "\n"
        ++ (if p.PodNetworkCIDR = "" then ""
            else "networking:\n  podSubnet: " ++ p.PodNetworkCIDR)
        ++ "\n"
        ++ (if p.HyperkubeImage = "" then ""
            else "unifiedControlPlaneImage: " ++ p.HyperkubeImage)
        ++ "\n",
       none) := by
  simp only [ExecuteTemplate, Parse_KubeadmConfigTmpl, Execute, execList, execNode,
    evalPipe, evalArg, field_KubernetesVersion, field_ClusterCIDR, field_PodNetworkCIDR,
    field_HyperkubeImage, printValue, String.empty_append, isTrue_str]
  by_cases h1 : p.ClusterCIDR = "" <;> by_cases h2 : p.PodNetworkCIDR = "" <;>
    by_cases h3 : p.HyperkubeImage = "" <;>
    simp only [h1, h2, h3, ne_eq, not_true_eq_false, not_false_eq_true, decide_True,
      decide_False, if_true, if_false, Bool.false_eq_true, String.append_assoc,
      String.append_empty, String.empty_append]

/-! ## The position of the cgroup driver in the kubelet artifacts -/

/-- The kubelet drop-in and the kubelet config begin with fixed text up to the driver, then
the token of UseLegacyCgroupDriver. -/
theorem kubelet_driver_position (p : ParameterSet) :
    (∃ rest, ExecuteTemplate KubeletSystemdDropinTmpl p.toData =
      ("[Service]\nEnvironment=\"KUBELET_CGROUP_ARGS=--cgroup-driver="
        ++ (if p.UseLegacyCgroupDriver then "cgroupfs" else "systemd") ++ "\"\n" ++ rest,
       none)) ∧
    (∃ rest, ExecuteTemplate KubeletConfigTmpl p.toData =
      ("kind: KubeletConfiguration\napiVersion: kubelet.config.k8s.io/v1beta1\nauthentication:\n  webhook:\n    enabled: true\ncgroupDriver: "
        ++ (if p.UseLegacyCgroupDriver then "cgroupfs" else "systemd") ++ "\n" ++ rest,
       none)) := by
  refine ⟨⟨"Environment=\"KUBELET_EXTRA_ARGS=\\\n"
        ++ (if p.ContainerRuntime = "docker" then ""
            else "--container-runtime=remote \\\n--container-runtime-endpoint="
              ++ p.RuntimeEndpoint ++ " \\\n--runtime-request-timeout=15m")
        ++ " \\\n--enforce-node-allocatable= \\\n--eviction-hard= \\\n--cgroups-per-qos=false \\\n--fail-swap-on=false \\\n--authentication-token-webhook\"\n", ?_⟩,
    ⟨"cgroupsPerQOS: false\nenforceNodeAllocatable:\nevictionHard:\nfailSwapOn: false\n"
        ++ (if p.ContainerRuntime = "docker" then ""
            else "runtimeRequestTimeout: 15m\nNodeRegistration:\n  CRISocket: "
              ++ p.RuntimeEndpoint)
        ++ "\n", ?_⟩⟩
  · rw [render_KubeletSystemdDropinTmpl]
    simp only [String.append_assoc]
    rw [show "\"\nEnvironment=\"KUBELET_EXTRA_ARGS=\\\n"
      = "\"\n" ++ "Environment=\"KUBELET_EXTRA_ARGS=\\\n" from by decide, String.append_assoc]
  · rw [render_KubeletConfigTmpl]
    simp only [String.append_assoc]
    rw [show "\ncgroupsPerQOS: false\nenforceNodeAllocatable:\nevictionHard:\nfailSwapOn: false\n"
      = "\n" ++ "cgroupsPerQOS: false\nenforceNodeAllocatable:\nevictionHard:\nfailSwapOn: false\n"
      from by decide, String.append_assoc]

/-- A driver token at the start of a text determines the token: "cgroupfs" and "systemd"
begin with different characters. -/
theorem driver_token_unique {a b r s : String}
    (ha : a = "cgroupfs" ∨ a = "systemd") (hb : b = "cgroupfs" ∨ b = "systemd")
    (pre : String) (h : pre ++ a ++ r = pre ++ b ++ s) : a = b := by
  have hdata := congrArg String.data h
  simp only [String.data_append, List.append_assoc] at hdata
  have hcancel := List.append_cancel_left hdata
  have hhead := congrArg List.head? hcancel
  rcases ha with rfl | rfl <;> rcases hb with rfl | rfl
  · rfl
  · exact absurd hhead (by simp [List.head?])
  · exact absurd hhead (by simp [List.head?])
  · rfl

/-! ## C1: the cgroup driver across the three artifacts -/

/-- C1, as stated, fails at `dockerExample` (UseLegacyCgroupDriver false): it is not so that
the docker systemd drop-in, the kubelet systemd drop-in and the kubelet config all say
"cgroupfs", nor that all three say "systemd": the docker drop-in is fixed text with
`native.cgroupdriver=cgroupfs`, the two kubelet artifacts say "systemd". -/
theorem cgroup_driver_docker_dropin_differs :
    ¬ ((Contains DockerSystemdDropin "native.cgroupdriver=cgroupfs" ∧
        Contains (ExecuteTemplate KubeletSystemdDropinTmpl dockerExample.toData).1
          "--cgroup-driver=cgroupfs" ∧
        Contains (ExecuteTemplate KubeletConfigTmpl dockerExample.toData).1
          "cgroupDriver: cgroupfs") ∨
       (Contains DockerSystemdDropin "native.cgroupdriver=systemd" ∧
        Contains (ExecuteTemplate KubeletSystemdDropinTmpl dockerExample.toData).1
          "--cgroup-driver=systemd" ∧
        Contains (ExecuteTemplate KubeletConfigTmpl dockerExample.toData).1
          "cgroupDriver: systemd")) := by
  decide!

/-- C1, amended: for every Parameter Set the kubelet systemd drop-in and the kubelet config
carry the same token right after `--cgroup-driver=` and `cgroupDriver: `, "cgroupfs" when
UseLegacyCgroupDriver is true and "systemd" when it is false; the docker systemd drop-in is
a constant that says `native.cgroupdriver=cgroupfs` and never "systemd", so the three agree
exactly when the token is "cgroupfs", that is when UseLegacyCgroupDriver is true. -/
theorem cgroup_driver_agreement (p : ParameterSet) :
    (∃ rest, ExecuteTemplate KubeletSystemdDropinTmpl p.toData =
      ("[Service]\nEnvironment=\"KUBELET_CGROUP_ARGS=--cgroup-driver="
        ++ (if p.UseLegacyCgroupDriver then "cgroupfs" else "systemd") ++ "\"\n" ++ rest,
       none)) ∧
    (∃ rest, ExecuteTemplate KubeletConfigTmpl p.toData =
      ("kind: KubeletConfiguration\napiVersion: kubelet.config.k8s.io/v1beta1\nauthentication:\n  webhook:\n    enabled: true\ncgroupDriver: "
        ++ (if p.UseLegacyCgroupDriver then "cgroupfs" else "systemd") ++ "\n" ++ rest,
       none)) ∧
    DockerSystemdDropin =
      "[Service]\nEnvironment=\"DOCKER_OPTS=--exec-opt native.cgroupdriver=cgroupfs\"\n" ∧
    Contains DockerSystemdDropin "native.cgroupdriver=cgroupfs" ∧
    ¬ Contains DockerSystemdDropin "native.cgroupdriver=systemd" ∧
    (((if p.UseLegacyCgroupDriver then "cgroupfs" else "systemd") : String) = "cgroupfs" ↔
      p.UseLegacyCgroupDriver = true) := by
  refine ⟨(kubelet_driver_position p).1, (kubelet_driver_position p).2, by decide!,
    by decide!, by decide!, ?_⟩
  cases p.UseLegacyCgroupDriver <;> decide

/-! ## C2: the remote-runtime flags follow the runtime -/

/-- C2: for every Parameter Set, when ContainerRuntime is "docker" both kubelet artifacts
render and the drop-in contains neither `--container-runtime=remote` nor
`--container-runtime-endpoint=`, the config neither `runtimeRequestTimeout` nor `CRISocket`;
for any other ContainerRuntime both render, the drop-in contains
`--container-runtime=remote`, `--container-runtime-endpoint=` followed by the exact
RuntimeEndpoint (and then ` \` and a newline) and `--runtime-request-timeout=15m`, and the
config contains `runtimeRequestTimeout: 15m` and `CRISocket: ` followed by the exact
RuntimeEndpoint and a newline. -/
theorem remote_runtime_flags (p : ParameterSet) :
    (p.ContainerRuntime = "docker" →
      (ExecuteTemplate KubeletSystemdDropinTmpl p.toData).2 = none ∧
      (ExecuteTemplate KubeletConfigTmpl p.toData).2 = none ∧
      ¬ Contains (ExecuteTemplate KubeletSystemdDropinTmpl p.toData).1
          "--container-runtime=remote" ∧
      ¬ Contains (ExecuteTemplate KubeletSystemdDropinTmpl p.toData).1
          "--container-runtime-endpoint=" ∧
      ¬ Contains (ExecuteTemplate KubeletConfigTmpl p.toData).1 "runtimeRequestTimeout" ∧
      ¬ Contains (ExecuteTemplate KubeletConfigTmpl p.toData).1 "CRISocket") ∧
    (p.ContainerRuntime ≠ "docker" →
      (ExecuteTemplate KubeletSystemdDropinTmpl p.toData).2 = none ∧
      (ExecuteTemplate KubeletConfigTmpl p.toData).2 = none ∧
      Contains (ExecuteTemplate KubeletSystemdDropinTmpl p.toData).1
        "--container-runtime=remote" ∧
      Contains (ExecuteTemplate KubeletSystemdDropinTmpl p.toData).1
        ("--container-runtime-endpoint=" ++ p.RuntimeEndpoint ++ " \\\n") ∧
      Contains (ExecuteTemplate KubeletSystemdDropinTmpl p.toData).1
        "--runtime-request-timeout=15m" ∧
      Contains (ExecuteTemplate KubeletConfigTmpl p.toData).1 "runtimeRequestTimeout: 15m" ∧
      Contains (ExecuteTemplate KubeletConfigTmpl p.toData).1
        ("CRISocket: " ++ p.RuntimeEndpoint ++ "\n")) := by
  rw [render_KubeletSystemdDropinTmpl, render_KubeletConfigTmpl]
  constructor
  · intro hd
    simp only [hd, if_true]
    cases p.UseLegacyCgroupDriver <;> decide!
  · intro hd
    simp only [hd, if_false]
    refine ⟨trivial, trivial, ?_, ?_, ?_, ?_, ?_⟩
    · exact contains_append_left _ (contains_append_right _ (contains_append_left _
        (contains_append_left _ (by decide!))))
    · exact contains_append_left _ (contains_append_right _
        (contains_sandwich _ (by decide!) (by decide!)))
    · exact contains_append_left _ (contains_append_right _
        (contains_append_right _ (by decide!)))
    · exact contains_append_left _ (contains_append_right _
        (contains_append_left _ (by decide!)))
    · rw [String.append_assoc _ _ "\n"]
      exact contains_append_right _ (contains_sandwich _ (by decide!) (by decide!))

/-- C2 at rkt with `/run/rktlet.sock` (the non-docker branch) and at `dockerExample` (the
docker branch). -/
theorem remote_runtime_flags_rkt :
    Contains (ExecuteTemplate KubeletSystemdDropinTmpl rktExample.toData).1
      "--container-runtime=remote" ∧
    Contains (ExecuteTemplate KubeletSystemdDropinTmpl rktExample.toData).1
      "--container-runtime-endpoint=/run/rktlet.sock \\\n" ∧
    Contains (ExecuteTemplate KubeletSystemdDropinTmpl rktExample.toData).1
      "--runtime-request-timeout=15m" ∧
    Contains (ExecuteTemplate KubeletConfigTmpl rktExample.toData).1
      "runtimeRequestTimeout: 15m" ∧
    Contains (ExecuteTemplate KubeletConfigTmpl rktExample.toData).1
      "CRISocket: /run/rktlet.sock\n" ∧
    ¬ Contains (ExecuteTemplate KubeletSystemdDropinTmpl dockerExample.toData).1
      "--container-runtime=remote" ∧
    ¬ Contains (ExecuteTemplate KubeletConfigTmpl dockerExample.toData).1 "CRISocket" :=
  ⟨((remote_runtime_flags rktExample).2 (by decide)).2.2.1,
   ((remote_runtime_flags rktExample).2 (by decide)).2.2.2.1,
   ((remote_runtime_flags rktExample).2 (by decide)).2.2.2.2.1,
   ((remote_runtime_flags rktExample).2 (by decide)).2.2.2.2.2.1,
   ((remote_runtime_flags rktExample).2 (by decide)).2.2.2.2.2.2,
   ((remote_runtime_flags dockerExample).1 (by decide)).2.2.1,
   ((remote_runtime_flags dockerExample).1 (by decide)).2.2.2.2.2⟩

/-! ## C3: rkt without a runtime endpoint -/

/-- C3, as stated, fails at `rktNoEndpoint` (ContainerRuntime "rkt", RuntimeEndpoint
empty): it is not so that both renders return an error; both succeed, the drop-in has
`--container-runtime-endpoint=` with nothing before the ` \`, the config has `CRISocket: `
with nothing before the newline. -/
theorem missing_endpoint_renders :
    ¬ ((ExecuteTemplate KubeletSystemdDropinTmpl rktNoEndpoint.toData).2 ≠ none ∧
       (ExecuteTemplate KubeletConfigTmpl rktNoEndpoint.toData).2 ≠ none) ∧
    Contains (ExecuteTemplate KubeletSystemdDropinTmpl rktNoEndpoint.toData).1
      "--container-runtime-endpoint= \\\n" ∧
    Contains (ExecuteTemplate KubeletConfigTmpl rktNoEndpoint.toData).1
      "CRISocket: \n" := by
  decide!

/-- C3, amended: for every Parameter Set with ContainerRuntime "rkt" and RuntimeEndpoint
empty, rendering the kubelet drop-in and the kubelet config succeeds (`ExecuteTemplate`
checks no parameter) and the endpoint is emitted as the empty string: the text is the one
below, with nothing after `--container-runtime-endpoint=` and after `CRISocket: `. -/
theorem empty_endpoint_is_emitted (p : ParameterSet) (hrt : p.ContainerRuntime = "rkt")
    (hep : p.RuntimeEndpoint = "") :
    ExecuteTemplate KubeletSystemdDropinTmpl p.toData =
      ("[Service]\nEnvironment=\"KUBELET_CGROUP_ARGS=--cgroup-driver="
        ++ (if p.UseLegacyCgroupDriver then "cgroupfs" else "systemd")
        ++ "\"\nEnvironment=\"KUBELET_EXTRA_ARGS=\\\n--container-runtime=remote \\\n--container-runtime-endpoint= \\\n--runtime-request-timeout=15m \\\n--enforce-node-allocatable= \\\n--eviction-hard= \\\n--cgroups-per-qos=false \\\n--fail-swap-on=false \\\n--authentication-token-webhook\"\n",
       none) ∧
    ExecuteTemplate KubeletConfigTmpl p.toData =
      ("kind: KubeletConfiguration\napiVersion: kubelet.config.k8s.io/v1beta1\nauthentication:\n  webhook:\n    enabled: true\ncgroupDriver: "
        ++ (if p.UseLegacyCgroupDriver then "cgroupfs" else "systemd")
        ++ "\ncgroupsPerQOS: false\nenforceNodeAllocatable:\nevictionHard:\nfailSwapOn: false\nruntimeRequestTimeout: 15m\nNodeRegistration:\n  CRISocket: \n",
       none) := by
  have hrd : ¬ ("rkt" : String) = "docker" := by decide
  rw [render_KubeletSystemdDropinTmpl, render_KubeletConfigTmpl]
  simp only [hrt, hep, hrd, if_false]
  cases p.UseLegacyCgroupDriver <;> decide!

/-- C3, amended, at `rktNoEndpoint`. -/
theorem empty_endpoint_is_emitted_rkt :
    ExecuteTemplate KubeletSystemdDropinTmpl rktNoEndpoint.toData =
      ("[Service]\nEnvironment=\"KUBELET_CGROUP_ARGS=--cgroup-driver=systemd\"\nEnvironment=\"KUBELET_EXTRA_ARGS=\\\n--container-runtime=remote \\\n--container-runtime-endpoint= \\\n--runtime-request-timeout=15m \\\n--enforce-node-allocatable= \\\n--eviction-hard= \\\n--cgroups-per-qos=false \\\n--fail-swap-on=false \\\n--authentication-token-webhook\"\n",
       none) ∧
    ExecuteTemplate KubeletConfigTmpl rktNoEndpoint.toData =
      ("kind: KubeletConfiguration\napiVersion: kubelet.config.k8s.io/v1beta1\nauthentication:\n  webhook:\n    enabled: true\ncgroupDriver: systemd\ncgroupsPerQOS: false\nenforceNodeAllocatable:\nevictionHard:\nfailSwapOn: false\nruntimeRequestTimeout: 15m\nNodeRegistration:\n  CRISocket: \n",
       none) :=
  empty_endpoint_is_emitted rktNoEndpoint (by decide) (by decide)

/-! ## C4: the buffer returned with an error -/

/-- C4, as stated, fails: on a struct without the field KubeadmResetOptions the template
`kubeadm reset {{.KubeadmResetOptions}}` fails in `Execute` after the text before the
action was written, and `ExecuteTemplate` returns that text, "kubeadm reset ", together
with the error; the buffer is not empty. -/
theorem execution_error_keeps_partial_output :
    ExecuteTemplate "kubeadm reset \x7b\x7b.KubeadmResetOptions\x7d\x7d\n" [] =
      ("kubeadm reset ", some (.exec "can't evaluate field")) ∧
    ¬ ((ExecuteTemplate "kubeadm reset \x7b\x7b.KubeadmResetOptions\x7d\x7d\n" []).2 ≠ none →
       (ExecuteTemplate "kubeadm reset \x7b\x7b.KubeadmResetOptions\x7d\x7d\n" []).1 = "") := by
  decide!

/-! The walk only ever appends to the buffer: what was written stays. -/

mutual
theorem execNode_extends (d : TmplData) :
    ∀ (n : Node) (out : String), ∃ w, (execNode d n out).1 = out ++ w
  | .text s, out => ⟨s, by simp [execNode]⟩
  | .action p, out => by
      simp only [execNode]
      split
      · exact ⟨"", by simp⟩
      · exact ⟨_, rfl⟩
  | .cond p thn els, out => by
      simp only [execNode]
      split
      · exact ⟨"", by simp⟩
      · split
        · exact execList_extends d thn out
        · exact execList_extends d els out
theorem execList_extends (d : TmplData) :
    ∀ (ns : List Node) (out : String), ∃ w, (execList d ns out).1 = out ++ w
  | [], out => ⟨"", by simp [execList]⟩
  | n :: ns, out => by
      obtain ⟨w1, h1⟩ := execNode_extends d n out
      simp only [execList]
      rcases hn : execNode d n out with ⟨o, _ | e⟩
      · rw [hn] at h1
        simp only at h1 ⊢
        obtain ⟨w2, h2⟩ := execList_extends d ns o
        exact ⟨w1 ++ w2, by rw [h2, h1, String.append_assoc]⟩
      · rw [hn] at h1
        exact ⟨w1, h1⟩
end

/-- Nodes that ran without error hand their buffer to the nodes after them. -/
theorem execList_append (d : TmplData) (pre rest : List Node) (out out1 : String)
    (h : execList d pre out = (out1, none)) :
    execList d (pre ++ rest) out = execList d rest out1 := by
  induction pre generalizing out with
  | nil =>
    simp only [execList, Prod.mk.injEq, and_true] at h
    rw [List.nil_append, h]
  | cons n ns ih =>
    simp only [List.cons_append, execList] at h ⊢
    rcases hn : execNode d n out with ⟨o, _ | e⟩
    · rw [hn] at h
      simp only at h ⊢
      exact ih o h
    · rw [hn] at h
      simp at h

/-- A walk that fails fails at one node of the list, after the nodes before it ran without
error. -/
theorem execList_error_split (d : TmplData) (ns : List Node) (out out2 : String) (e : String)
    (h : execList d ns out = (out2, some e)) :
    ∃ pre n rest out1, ns = pre ++ n :: rest ∧ execList d pre out = (out1, none) ∧
      execNode d n out1 = (out2, some e) := by
  induction ns generalizing out with
  | nil => simp [execList] at h
  | cons n ns ih =>
    simp only [execList] at h
    rcases hn : execNode d n out with ⟨o, _ | e'⟩
    · rw [hn] at h
      simp only at h
      obtain ⟨pre, m, rest, out1, hns, hpre, hm⟩ := ih o h
      refine ⟨n :: pre, m, rest, out1, by rw [hns, List.cons_append], ?_, hm⟩
      simp only [execList, hn, hpre]
    · rw [hn] at h
      simp only [Prod.mk.injEq, Option.some.injEq] at h
      refine ⟨[], n, ns, out, rfl, by simp [execList], ?_⟩
      rw [hn, h.1, h.2]

/-- A step that emits no item leaves the items of the rest. -/
theorem lexFrom_ok_nil (x : Except ParseError (List Item)) :
    (match x with
      | .error e => Except.error e
      | .ok more => Except.ok ([] ++ more)) = x := by
  cases x <;> rfl

/-- Text without a left brace is collected as it stands. -/
theorem lexFrom_text (acc s rest : List Char) (h : lbrace ∉ s) :
    lexFrom (.text false acc) (s ++ rest) = lexFrom (.text false (s.reverse ++ acc)) rest := by
  induction s generalizing acc with
  | nil => rfl
  | cons c s ih =>
    have hc : ¬ c = lbrace := fun e => h (by simp [e])
    have hs : lbrace ∉ s := fun e => h (List.mem_cons_of_mem _ e)
    rw [List.cons_append, lexFrom]
    simp only [lexStep, hasPrefix, hc, decide_False, Bool.false_and, Bool.false_eq_true,
      if_false]
    refine (lexFrom_ok_nil _).trans ?_
    rw [ih _ hs]
    simp

/-- The items of a text without a left brace followed by the action `{{.Missing}}`. -/
theorem lex_text_then_field (s : String) (h : lbrace ∉ s.data) :
    lex (s ++ "\x7b\x7b.Missing\x7d\x7d") =
      .ok (textItem s.data.reverse ++ [Item.action [Word.field "Missing"]]) := by
  unfold lex
  rw [String.data_append, lexFrom_text _ _ _ h, List.append_nil]
  rfl

/-- A text without a left brace followed by an action on a field the struct lacks: the
render fails and the buffer holds the text. -/
theorem text_then_missing_field (s : String) (h : lbrace ∉ s.data) (d : TmplData)
    (hd : d.lookup "Missing" = none) :
    ExecuteTemplate (s ++ "\x7b\x7b.Missing\x7d\x7d") d =
      (s, some (.exec "can't evaluate field")) := by
  unfold ExecuteTemplate Parse
  rw [lex_text_then_field s h]
  by_cases he : s.data = []
  · have hs : s = "" := String.ext he
    subst hs
    simp [textItem, parseItems, parseAction, parsePipe, pushNode, Execute, execList,
      execNode, evalPipe, evalArg, evalField, hd, Except.map]
  · have ht : textItem s.data.reverse = [Item.text s] := by
      simp [textItem, he]
    rw [ht]
    simp [parseItems, parseAction, parsePipe, pushNode, Execute, execList,
      execNode, evalPipe, evalArg, evalField, hd, Except.map]

/-- C4, amended: for every template string inside the embedded fragment of `text/template`
and every data value, a parse error is an error of `template.Parse` and comes with the empty
buffer; when the template parses and `Execute` succeeds, the buffer is the complete text and
there is no error; when `Execute` fails, `ExecuteTemplate` returns the error together with
the buffer as the failure left it: the nodes before the failing node ran without error and
wrote `written`, and the buffer returned begins with `written` (it is `written` itself when
the failing node is an action), so it is not cleared.  In particular any text without a
left brace followed by an action on a missing field is returned whole with the error. -/
theorem buffer_on_error (tmplStr : String) (tmplData : TmplData)
    (hfrag : inFragment tmplStr = true) :
    (∀ err, Parse tmplStr = .error err →
      (∃ msg, err = .invalid msg) ∧
      ExecuteTemplate tmplStr tmplData = ("", some (.parse err))) ∧
    (∀ err, (ExecuteTemplate tmplStr tmplData).2 = some (.parse err) →
      (ExecuteTemplate tmplStr tmplData).1 = "") ∧
    (∀ tmpl, Parse tmplStr = .ok tmpl →
      (∀ out, Execute tmpl "" tmplData = (out, none) →
        ExecuteTemplate tmplStr tmplData = (out, none)) ∧
      (∀ out e, Execute tmpl "" tmplData = (out, some e) →
        ExecuteTemplate tmplStr tmplData = (out, some (.exec e)) ∧
        ∃ pre n rest written,
          tmpl = pre ++ n :: rest ∧
          Execute pre "" tmplData = (written, none) ∧
          execNode tmplData n written = (out, some e) ∧
          (∃ w, out = written ++ w) ∧
          (∀ p, n = Node.action p → out = written))) ∧
    (∀ s : String, lbrace ∉ s.data → tmplData.lookup "Missing" = none →
      ExecuteTemplate (s ++ "\x7b\x7b.Missing\x7d\x7d") tmplData =
        (s, some (.exec "can't evaluate field"))) := by
  refine ⟨?_, ?_, ?_, fun s hs hd => text_then_missing_field s hs tmplData hd⟩
  · intro err h
    constructor
    · cases err with
      | invalid msg => exact ⟨msg, rfl⟩
      | outside what => simp [inFragment, h] at hfrag
    · simp [ExecuteTemplate, h]
  · intro err h
    unfold ExecuteTemplate at h ⊢
    cases hp : Parse tmplStr with
    | error e => simp [hp]
    | ok tmpl =>
      simp only [hp] at h
      rcases hE : Execute tmpl "" tmplData with ⟨out, _ | e⟩ <;> simp [hE] at h
  · intro tmpl h
    constructor
    · intro out hE
      simp [ExecuteTemplate, h, hE]
    · intro out e hE
      refine ⟨by simp [ExecuteTemplate, h, hE], ?_⟩
      obtain ⟨pre, n, rest, written, hsplit, hpre, hn⟩ :=
        execList_error_split tmplData tmpl "" out e hE
      refine ⟨pre, n, rest, written, hsplit, hpre, hn, ?_, ?_⟩
      · obtain ⟨w, hw⟩ := execNode_extends tmplData n written
        rw [hn] at hw
        exact ⟨w, hw⟩
      · intro p hp
        subst hp
        simp only [execNode] at hn
        split at hn
        · simp only [Prod.mk.injEq] at hn
          exact hn.1.symm
        · simp at hn

/-- A left delimiter with nothing after it is an unclosed action. -/
theorem Parse_unclosed : Parse "\x7b\x7b" = .error (.invalid "unclosed action") := by
  rfl

/-- The tree of the reset line of the bootstrap script taken alone. -/
theorem Parse_reset_line :
    Parse "kubeadm reset \x7b\x7b.KubeadmResetOptions\x7d\x7d\n" =
      .ok [.text "kubeadm reset ", .action (.arg (.field "KubeadmResetOptions")),
           .text "\n"] := by
  rfl

/-- C4, amended, at an unclosed action (parse error, empty buffer), at a text followed by
an action on a missing field, and at the reset line on a struct without fields (execution
error, the text before the action in the buffer). -/
theorem buffer_on_error_examples :
    ExecuteTemplate "\x7b\x7b" [] = ("", some (.parse (.invalid "unclosed action"))) ∧
    ExecuteTemplate ("systemctl start " ++ "\x7b\x7b.Missing\x7d\x7d") [] =
      ("systemctl start ", some (.exec "can't evaluate field")) ∧
    ExecuteTemplate "kubeadm reset \x7b\x7b.KubeadmResetOptions\x7d\x7d\n" [] =
      ("kubeadm reset ", some (.exec "can't evaluate field")) :=
  ⟨((buffer_on_error "\x7b\x7b" [] (by decide!)).1 _ Parse_unclosed).2,
   (buffer_on_error "" [] (by decide!)).2.2.2 "systemctl start " (by decide!) rfl,
   (((buffer_on_error "kubeadm reset \x7b\x7b.KubeadmResetOptions\x7d\x7d\n" []
      (by decide!)).2.2.1 _ Parse_reset_line).2 "kubeadm reset " "can't evaluate field"
      (by decide!)).1⟩

/-! ## C5: the optional blocks of the kubeadm configuration -/

/-- A block that is empty with its field is the block's keys, empty with the field, followed
by the field. -/
theorem ite_empty_append (f k : String) :
    (if f = "" then "" else k ++ f) = (if f = "" then "" else k) ++ f := by
  split
  · next h => simp [h]
  · rfl

/-- The fixed texts of the kubeadm configuration outside the optional blocks hold none of
the keys, and no occurrence of a key can cross out of a fixed text. -/
theorem optionalBlockKeys_facts : ∀ k ∈ optionalBlockKeys,
    k.data ≠ [] ∧
    ¬ Contains "apiVersion: kubeadm.k8s.io/v1alpha1\nauthorizationMode: AlwaysAllow\napiServerExtraArgs:\n  insecure-port: \"8080\"\ncontrollerManagerExtraArgs:\nkubernetesVersion: " k ∧
    ¬ Contains "\nschedulerExtraArgs:\n" k ∧
    ¬ Contains "\n" k ∧
    noOverlap k.data (String.data "apiVersion: kubeadm.k8s.io/v1alpha1\nauthorizationMode: AlwaysAllow\napiServerExtraArgs:\n  insecure-port: \"8080\"\ncontrollerManagerExtraArgs:\nkubernetesVersion: ") = true ∧
    noOverlap k.data (String.data "\nschedulerExtraArgs:\n") = true ∧
    noOverlap k.data (String.data "\n") = true ∧
    noOverlap k.data (String.data "") = true ∧
    noOverlap k.data (String.data "kubeProxy:\n  config:\n    clusterCIDR: ") = true ∧
    noOverlap k.data (String.data "networking:\n  podSubnet: ") = true ∧
    noOverlap k.data (String.data "unifiedControlPlaneImage: ") = true ∧
    startsOutside k.data (String.data "\nschedulerExtraArgs:\n") = true ∧
    startsOutside k.data (String.data "\n") = true := by
  unfold optionalBlockKeys
  decide!

/-- An occurrence of a key in the kubeadm configuration lies in the keys of a block that is
present, once no field holds the key. -/
theorem kubeadm_occurrence (p : ParameterSet) (k : String) (hk : k ∈ optionalBlockKeys)
    (hver : ¬ Contains p.KubernetesVersion k) (hcidr : ¬ Contains p.ClusterCIDR k)
    (hpod : ¬ Contains p.PodNetworkCIDR k) (himg : ¬ Contains p.HyperkubeImage k) :
    Contains (ExecuteTemplate KubeadmConfigTmpl p.toData).1 k ↔
      (Contains (if p.ClusterCIDR = "" then "" else "kubeProxy:\n  config:\n    clusterCIDR: ") k
        ∨ Contains (if p.PodNetworkCIDR = "" then "" else "networking:\n  podSubnet: ") k
        ∨ Contains (if p.HyperkubeImage = "" then "" else "unifiedControlPlaneImage: ") k) := by
  obtain ⟨hne, hH, hS, hN, oH, oS, oN, oE, o1, o2, o3, sS, sN⟩ := optionalBlockKeys_facts k hk
  rw [render_KubeadmConfigTmpl, ite_empty_append, ite_empty_append, ite_empty_append]
  have hiff := contains_pieces (n := k)
    (s := "apiVersion: kubeadm.k8s.io/v1alpha1\nauthorizationMode: AlwaysAllow\napiServerExtraArgs:\n  insecure-port: \"8080\"\ncontrollerManagerExtraArgs:\nkubernetesVersion: "
        ++ p.KubernetesVersion
        ++ "\nschedulerExtraArgs:\n"
        ++ ((if p.ClusterCIDR = "" then "" else "kubeProxy:\n  config:\n    clusterCIDR: ") ++ p.ClusterCIDR)
        ++ "\n"
        ++ ((if p.PodNetworkCIDR = "" then "" else "networking:\n  podSubnet: ") ++ p.PodNetworkCIDR)
        ++ "\n"
        ++ ((if p.HyperkubeImage = "" then "" else "unifiedControlPlaneImage: ") ++ p.HyperkubeImage)
        ++ "\n")
    ["apiVersion: kubeadm.k8s.io/v1alpha1\nauthorizationMode: AlwaysAllow\napiServerExtraArgs:\n  insecure-port: \"8080\"\ncontrollerManagerExtraArgs:\nkubernetesVersion: ",
     p.KubernetesVersion, "\nschedulerExtraArgs:\n",
     (if p.ClusterCIDR = "" then "" else "kubeProxy:\n  config:\n    clusterCIDR: "),
     p.ClusterCIDR, "\n",
     (if p.PodNetworkCIDR = "" then "" else "networking:\n  podSubnet: "),
     p.PodNetworkCIDR, "\n",
     (if p.HyperkubeImage = "" then "" else "unifiedControlPlaneImage: "),
     p.HyperkubeImage, "\n"]
    (by simp only [String.data_append, List.map, List.flatten, List.append_assoc,
          List.append_nil])
    hne
    (by
      simp only [List.map, Guarded, and_true]
      refine ⟨Or.inl oH, Or.inr sS, Or.inl oS, Or.inl ?_, Or.inr sN, Or.inl oN, Or.inl ?_,
        Or.inr sN, Or.inl oN, Or.inl ?_, Or.inr sN⟩
      all_goals (split <;> assumption))
  rw [hiff]
  simp only [List.mem_cons, List.mem_singleton, List.not_mem_nil, or_false, exists_eq_or_imp,
    exists_eq_left, hver, hcidr, hpod, himg, hH, hS, hN, false_or, or_false]

/-- C5: for every Parameter Set whose KubernetesVersion, ClusterCIDR, PodNetworkCIDR and
HyperkubeImage contain none of the five key names, the kubeadm config renders and contains
`kubeProxy:` and `clusterCIDR:` if and only if ClusterCIDR is non-empty, `networking:` and
`podSubnet:` if and only if PodNetworkCIDR is non-empty, and `unifiedControlPlaneImage:` if
and only if HyperkubeImage is non-empty (all eight combinations). -/
theorem kubeadm_optional_blocks (p : ParameterSet)
    (hver : ∀ k ∈ optionalBlockKeys, ¬ Contains p.KubernetesVersion k)
    (hcidr : ∀ k ∈ optionalBlockKeys, ¬ Contains p.ClusterCIDR k)
    (hpod : ∀ k ∈ optionalBlockKeys, ¬ Contains p.PodNetworkCIDR k)
    (himg : ∀ k ∈ optionalBlockKeys, ¬ Contains p.HyperkubeImage k) :
    (ExecuteTemplate KubeadmConfigTmpl p.toData).2 = none ∧
    (Contains (ExecuteTemplate KubeadmConfigTmpl p.toData).1 "kubeProxy:" ↔
      p.ClusterCIDR ≠ "") ∧
    (Contains (ExecuteTemplate KubeadmConfigTmpl p.toData).1 "clusterCIDR:" ↔
      p.ClusterCIDR ≠ "") ∧
    (Contains (ExecuteTemplate KubeadmConfigTmpl p.toData).1 "networking:" ↔
      p.PodNetworkCIDR ≠ "") ∧
    (Contains (ExecuteTemplate KubeadmConfigTmpl p.toData).1 "podSubnet:" ↔
      p.PodNetworkCIDR ≠ "") ∧
    (Contains (ExecuteTemplate KubeadmConfigTmpl p.toData).1 "unifiedControlPlaneImage:" ↔
      p.HyperkubeImage ≠ "") := by
  have m1 : "kubeProxy:" ∈ optionalBlockKeys := by decide!
  have m2 : "clusterCIDR:" ∈ optionalBlockKeys := by decide!
  have m3 : "networking:" ∈ optionalBlockKeys := by decide!
  have m4 : "podSubnet:" ∈ optionalBlockKeys := by decide!
  have m5 : "unifiedControlPlaneImage:" ∈ optionalBlockKeys := by decide!
  refine ⟨by rw [render_KubeadmConfigTmpl], ?_, ?_, ?_, ?_, ?_⟩
  · rw [kubeadm_occurrence p _ m1 (hver _ m1) (hcidr _ m1) (hpod _ m1) (himg _ m1)]
    by_cases h1 : p.ClusterCIDR = "" <;> by_cases h2 : p.PodNetworkCIDR = "" <;>
      by_cases h3 : p.HyperkubeImage = "" <;>
      simp only [h1, h2, h3, if_true, if_false, ne_eq, not_true_eq_false,
        not_false_eq_true] <;> decide!
  · rw [kubeadm_occurrence p _ m2 (hver _ m2) (hcidr _ m2) (hpod _ m2) (himg _ m2)]
    by_cases h1 : p.ClusterCIDR = "" <;> by_cases h2 : p.PodNetworkCIDR = "" <;>
      by_cases h3 : p.HyperkubeImage = "" <;>
      simp only [h1, h2, h3, if_true, if_false, ne_eq, not_true_eq_false,
        not_false_eq_true] <;> decide!
  · rw [kubeadm_occurrence p _ m3 (hver _ m3) (hcidr _ m3) (hpod _ m3) (himg _ m3)]
    by_cases h1 : p.ClusterCIDR = "" <;> by_cases h2 : p.PodNetworkCIDR = "" <;>
      by_cases h3 : p.HyperkubeImage = "" <;>
      simp only [h1, h2, h3, if_true, if_false, ne_eq, not_true_eq_false,
        not_false_eq_true] <;> decide!
  · rw [kubeadm_occurrence p _ m4 (hver _ m4) (hcidr _ m4) (hpod _ m4) (himg _ m4)]
    by_cases h1 : p.ClusterCIDR = "" <;> by_cases h2 : p.PodNetworkCIDR = "" <;>
      by_cases h3 : p.HyperkubeImage = "" <;>
      simp only [h1, h2, h3, if_true, if_false, ne_eq, not_true_eq_false,
        not_false_eq_true] <;> decide!
  · rw [kubeadm_occurrence p _ m5 (hver _ m5) (hcidr _ m5) (hpod _ m5) (himg _ m5)]
    by_cases h1 : p.ClusterCIDR = "" <;> by_cases h2 : p.PodNetworkCIDR = "" <;>
      by_cases h3 : p.HyperkubeImage = "" <;>
      simp only [h1, h2, h3, if_true, if_false, ne_eq, not_true_eq_false,
        not_false_eq_true] <;> decide!

/-- C5 at `rktExample` (only PodNetworkCIDR set) and at `dockerExample` (all three set). -/
theorem kubeadm_optional_blocks_examples :
    (Contains (ExecuteTemplate KubeadmConfigTmpl rktExample.toData).1 "networking:" ∧
     Contains (ExecuteTemplate KubeadmConfigTmpl rktExample.toData).1 "podSubnet:" ∧
     ¬ Contains (ExecuteTemplate KubeadmConfigTmpl rktExample.toData).1 "kubeProxy:" ∧
     ¬ Contains (ExecuteTemplate KubeadmConfigTmpl rktExample.toData).1 "clusterCIDR:" ∧
     ¬ Contains (ExecuteTemplate KubeadmConfigTmpl rktExample.toData).1
        "unifiedControlPlaneImage:") ∧
    (Contains (ExecuteTemplate KubeadmConfigTmpl dockerExample.toData).1 "kubeProxy:" ∧
     Contains (ExecuteTemplate KubeadmConfigTmpl dockerExample.toData).1
        "unifiedControlPlaneImage:") := by
  have hr := kubeadm_optional_blocks rktExample (by decide!) (by decide!) (by decide!)
    (by decide!)
  have hd := kubeadm_optional_blocks dockerExample (by decide!) (by decide!) (by decide!)
    (by decide!)
  exact ⟨⟨hr.2.2.2.1.mpr (by decide), hr.2.2.2.2.1.mpr (by decide),
      fun h => hr.2.1.mp h rfl, fun h => hr.2.2.1.mp h rfl, fun h => hr.2.2.2.2.2.mp h rfl⟩,
    hd.2.1.mpr (by decide), hd.2.2.2.2.2.mpr (by decide)⟩

/-! ## C6: the runtime blocks of the bootstrap script -/

/-- The fixed texts of the bootstrap script hold none of the texts looked for, and no
occurrence can cross out of them. -/
theorem bootstrapNeedles_facts : ∀ n ∈ bootstrapNeedles,
    n.data ≠ [] ∧
    ¬ Contains "#!/bin/bash\n\nset -euxo pipefail\n\necho \"root:root\" | chpasswd\necho \"core:core\" | chpasswd\n\nsystemctl enable kubelet.service\nsystemctl enable sshd.service\n\n" n ∧
    ¬ Contains "\n" n ∧
    ¬ Contains "\n\nmkdir -p /var/lib/weave\n\n# necessary to prevent docker from being blocked\nsystemctl mask systemd-networkd-wait-online.service\n\n[ -f /etc/kubernetes/kubelet.conf ] && kubeadm reset " n ∧
    ¬ Contains "\nsystemctl start --no-block kubelet.service\n" n ∧
    noOverlap n.data (String.data "#!/bin/bash\n\nset -euxo pipefail\n\necho \"root:root\" | chpasswd\necho \"core:core\" | chpasswd\n\nsystemctl enable kubelet.service\nsystemctl enable sshd.service\n\n") = true ∧
    noOverlap n.data (String.data "\n") = true ∧
    noOverlap n.data (String.data "\n\nmkdir -p /var/lib/weave\n\n# necessary to prevent docker from being blocked\nsystemctl mask systemd-networkd-wait-online.service\n\n[ -f /etc/kubernetes/kubelet.conf ] && kubeadm reset ") = true ∧
    startsOutside n.data (String.data "\n") = true ∧
    startsOutside n.data (String.data "\n\nmkdir -p /var/lib/weave\n\n# necessary to prevent docker from being blocked\nsystemctl mask systemd-networkd-wait-online.service\n\n[ -f /etc/kubernetes/kubelet.conf ] && kubeadm reset ") = true ∧
    startsOutside n.data (String.data "\nsystemctl start --no-block kubelet.service\n") = true := by
  unfold bootstrapNeedles
  decide!

/-- An occurrence of one of the texts looked for lies in one of the two runtime blocks, once
KubeadmResetOptions does not hold it. -/
theorem bootstrap_occurrence (p : ParameterSet) (n : String) (hn : n ∈ bootstrapNeedles)
    (hopts : ¬ Contains p.KubeadmResetOptions n) :
    Contains (ExecuteTemplate KubespawnBootstrapScriptTmpl p.toData).1 n ↔
      (Contains (if p.ContainerRuntime = "docker" then "systemctl start --no-block docker.service" else "") n
        ∨ Contains (if p.ContainerRuntime = "rkt" then "systemctl start --no-block rktlet.service\nmkdir -p /usr/lib/rkt/plugins\nln -s /opt/cni/bin/ /usr/lib/rkt/plugins/net\nln -sfT /etc/cni/net.d /etc/rkt/net.d" else "") n) := by
  obtain ⟨hne, h0, hN, h1, h2, o0, oN, o1, sN, s1, s2⟩ := bootstrapNeedles_facts n hn
  rw [render_KubespawnBootstrapScriptTmpl]
  have hiff := contains_pieces (n := n)
    (s := "#!/bin/bash\n\nset -euxo pipefail\n\necho \"root:root\" | chpasswd\necho \"core:core\" | chpasswd\n\nsystemctl enable kubelet.service\nsystemctl enable sshd.service\n\n"
        ++ (if p.ContainerRuntime = "docker" then "systemctl start --no-block docker.service" else "")
        ++ "\n"
        ++ (if p.ContainerRuntime = "rkt" then "systemctl start --no-block rktlet.service\nmkdir -p /usr/lib/rkt/plugins\nln -s /opt/cni/bin/ /usr/lib/rkt/plugins/net\nln -sfT /etc/cni/net.d /etc/rkt/net.d" else "")
        ++ "\n\nmkdir -p /var/lib/weave\n\n# necessary to prevent docker from being blocked\nsystemctl mask systemd-networkd-wait-online.service\n\n[ -f /etc/kubernetes/kubelet.conf ] && kubeadm reset "
        ++ p.KubeadmResetOptions
        ++ "\nsystemctl start --no-block kubelet.service\n")
    ["#!/bin/bash\n\nset -euxo pipefail\n\necho \"root:root\" | chpasswd\necho \"core:core\" | chpasswd\n\nsystemctl enable kubelet.service\nsystemctl enable sshd.service\n\n",
     (if p.ContainerRuntime = "docker" then "systemctl start --no-block docker.service" else ""),
     "\n",
     (if p.ContainerRuntime = "rkt" then "systemctl start --no-block rktlet.service\nmkdir -p /usr/lib/rkt/plugins\nln -s /opt/cni/bin/ /usr/lib/rkt/plugins/net\nln -sfT /etc/cni/net.d /etc/rkt/net.d" else ""),
     "\n\nmkdir -p /var/lib/weave\n\n# necessary to prevent docker from being blocked\nsystemctl mask systemd-networkd-wait-online.service\n\n[ -f /etc/kubernetes/kubelet.conf ] && kubeadm reset ",
     p.KubeadmResetOptions,
     "\nsystemctl start --no-block kubelet.service\n"]
    (by simp only [String.data_append, List.map, List.flatten, List.append_assoc,
          List.append_nil])
    hne
    (by
      simp only [List.map, Guarded, and_true]
      exact ⟨Or.inl o0, Or.inr sN, Or.inl oN, Or.inr s1, Or.inl o1, Or.inr s2⟩)
  rw [hiff]
  simp only [List.mem_cons, List.mem_singleton, List.not_mem_nil, or_false, exists_eq_or_imp,
    exists_eq_left, hopts, h0, hN, h1, h2, false_or, or_false]

/-- C6: for every Parameter Set whose KubeadmResetOptions holds none of the texts looked
for, the bootstrap script renders, contains `systemctl start --no-block docker.service` if
and only if ContainerRuntime is "docker", and contains
`systemctl start --no-block rktlet.service` and each of the two CNI symlink commands if and
only if ContainerRuntime is "rkt"; the two runtime blocks are never both emitted, and for
rkt the text `docker.service` does not occur. -/
theorem bootstrap_runtime_blocks (p : ParameterSet)
    (hopts : ∀ n ∈ bootstrapNeedles, ¬ Contains p.KubeadmResetOptions n) :
    (ExecuteTemplate KubespawnBootstrapScriptTmpl p.toData).2 = none ∧
    (Contains (ExecuteTemplate KubespawnBootstrapScriptTmpl p.toData).1
        "systemctl start --no-block docker.service" ↔ p.ContainerRuntime = "docker") ∧
    (Contains (ExecuteTemplate KubespawnBootstrapScriptTmpl p.toData).1
        "systemctl start --no-block rktlet.service" ↔ p.ContainerRuntime = "rkt") ∧
    (Contains (ExecuteTemplate KubespawnBootstrapScriptTmpl p.toData).1
        "ln -s /opt/cni/bin/ /usr/lib/rkt/plugins/net" ↔ p.ContainerRuntime = "rkt") ∧
    (Contains (ExecuteTemplate KubespawnBootstrapScriptTmpl p.toData).1
        "ln -sfT /etc/cni/net.d /etc/rkt/net.d" ↔ p.ContainerRuntime = "rkt") ∧
    ¬ (Contains (ExecuteTemplate KubespawnBootstrapScriptTmpl p.toData).1
          "systemctl start --no-block docker.service" ∧
        Contains (ExecuteTemplate KubespawnBootstrapScriptTmpl p.toData).1
          "systemctl start --no-block rktlet.service") ∧
    (p.ContainerRuntime = "rkt" →
      ¬ Contains (ExecuteTemplate KubespawnBootstrapScriptTmpl p.toData).1
          "docker.service") := by
  have m1 : "systemctl start --no-block docker.service" ∈ bootstrapNeedles := by decide!
  have m2 : "systemctl start --no-block rktlet.service" ∈ bootstrapNeedles := by decide!
  have m3 : "ln -s /opt/cni/bin/ /usr/lib/rkt/plugins/net" ∈ bootstrapNeedles := by decide!
  have m4 : "ln -sfT /etc/cni/net.d /etc/rkt/net.d" ∈ bootstrapNeedles := by decide!
  have m5 : "docker.service" ∈ bootstrapNeedles := by decide!
  have hdr : ¬ ("docker" : String) = "rkt" := by decide
  have hrd : ¬ ("rkt" : String) = "docker" := by decide
  have e1 : Contains (ExecuteTemplate KubespawnBootstrapScriptTmpl p.toData).1
      "systemctl start --no-block docker.service" ↔ p.ContainerRuntime = "docker" := by
    rw [bootstrap_occurrence p _ m1 (hopts _ m1)]
    by_cases hd : p.ContainerRuntime = "docker" <;> by_cases hr : p.ContainerRuntime = "rkt" <;>
      simp only [hd, hr, hdr, hrd, if_true, if_false] <;> decide!
  have e2 : Contains (ExecuteTemplate KubespawnBootstrapScriptTmpl p.toData).1
      "systemctl start --no-block rktlet.service" ↔ p.ContainerRuntime = "rkt" := by
    rw [bootstrap_occurrence p _ m2 (hopts _ m2)]
    by_cases hr : p.ContainerRuntime = "rkt" <;> by_cases hd : p.ContainerRuntime = "docker" <;>
      simp only [hd, hr, hdr, hrd, if_true, if_false] <;> decide!
  refine ⟨by rw [render_KubespawnBootstrapScriptTmpl], e1, e2, ?_, ?_, ?_, ?_⟩
  · rw [bootstrap_occurrence p _ m3 (hopts _ m3)]
    by_cases hr : p.ContainerRuntime = "rkt" <;> by_cases hd : p.ContainerRuntime = "docker" <;>
      simp only [hd, hr, hdr, hrd, if_true, if_false] <;> decide!
  · rw [bootstrap_occurrence p _ m4 (hopts _ m4)]
    by_cases hr : p.ContainerRuntime = "rkt" <;> by_cases hd : p.ContainerRuntime = "docker" <;>
      simp only [hd, hr, hdr, hrd, if_true, if_false] <;> decide!
  · rintro ⟨h1, h2⟩
    have hd := e1.mp h1
    have hr := e2.mp h2
    rw [hd] at hr
    exact hdr hr
  · intro hr
    rw [bootstrap_occurrence p _ m5 (hopts _ m5)]
    simp only [hr, hrd, if_true, if_false]
    decide!

/-- C6 at `rktExample` and at `dockerExample`. -/
theorem bootstrap_runtime_blocks_examples :
    (Contains (ExecuteTemplate KubespawnBootstrapScriptTmpl rktExample.toData).1
        "systemctl start --no-block rktlet.service" ∧
     Contains (ExecuteTemplate KubespawnBootstrapScriptTmpl rktExample.toData).1
        "ln -s /opt/cni/bin/ /usr/lib/rkt/plugins/net" ∧
     Contains (ExecuteTemplate KubespawnBootstrapScriptTmpl rktExample.toData).1
        "ln -sfT /etc/cni/net.d /etc/rkt/net.d" ∧
     ¬ Contains (ExecuteTemplate KubespawnBootstrapScriptTmpl rktExample.toData).1
        "docker.service") ∧
    (Contains (ExecuteTemplate KubespawnBootstrapScriptTmpl dockerExample.toData).1
        "systemctl start --no-block docker.service" ∧
     ¬ Contains (ExecuteTemplate KubespawnBootstrapScriptTmpl dockerExample.toData).1
        "systemctl start --no-block rktlet.service") := by
  have hr := bootstrap_runtime_blocks rktExample (by decide!)
  have hd := bootstrap_runtime_blocks dockerExample (by decide!)
  exact ⟨⟨hr.2.2.1.mpr rfl, hr.2.2.2.1.mpr rfl, hr.2.2.2.2.1.mpr rfl, hr.2.2.2.2.2.2 rfl⟩,
    hd.2.1.mpr rfl, fun h => absurd (hd.2.2.1.mp h) (by decide)⟩

/-! ## C7: the cgroup driver of the two kubelet artifacts -/

/-- C7: for every Parameter Set the kubelet drop-in contains `--cgroup-driver=cgroupfs` and
the kubelet config `cgroupDriver: cgroupfs` when UseLegacyCgroupDriver is true, and they
contain `--cgroup-driver=systemd` and `cgroupDriver: systemd` when it is false; the two
never name different drivers: whatever tokens `a` and `b` of the two stand right after
`--cgroup-driver=` in the drop-in and after `cgroupDriver: ` in the config, they are the
same token, the one UseLegacyCgroupDriver selects. -/
theorem kubelet_cgroup_driver (p : ParameterSet) :
    (p.UseLegacyCgroupDriver = true →
      Contains (ExecuteTemplate KubeletSystemdDropinTmpl p.toData).1
        "--cgroup-driver=cgroupfs" ∧
      Contains (ExecuteTemplate KubeletConfigTmpl p.toData).1 "cgroupDriver: cgroupfs") ∧
    (p.UseLegacyCgroupDriver = false →
      Contains (ExecuteTemplate KubeletSystemdDropinTmpl p.toData).1
        "--cgroup-driver=systemd" ∧
      Contains (ExecuteTemplate KubeletConfigTmpl p.toData).1 "cgroupDriver: systemd") ∧
    (∀ a b r s : String, (a = "cgroupfs" ∨ a = "systemd") → (b = "cgroupfs" ∨ b = "systemd") →
      (ExecuteTemplate KubeletSystemdDropinTmpl p.toData).1 =
        "[Service]\nEnvironment=\"KUBELET_CGROUP_ARGS=--cgroup-driver=" ++ a ++ r →
      (ExecuteTemplate KubeletConfigTmpl p.toData).1 =
        "kind: KubeletConfiguration\napiVersion: kubelet.config.k8s.io/v1beta1\nauthentication:\n  webhook:\n    enabled: true\ncgroupDriver: " ++ b ++ s →
      a = b ∧ a = (if p.UseLegacyCgroupDriver then "cgroupfs" else "systemd")) := by
  obtain ⟨⟨rd, hD⟩, ⟨rc, hC⟩⟩ := kubelet_driver_position p
  have htok : ((if p.UseLegacyCgroupDriver then "cgroupfs" else "systemd") : String) = "cgroupfs"
      ∨ ((if p.UseLegacyCgroupDriver then "cgroupfs" else "systemd") : String) = "systemd" := by
    cases p.UseLegacyCgroupDriver
    · right; rfl
    · left; rfl
  refine ⟨?_, ?_, ?_⟩
  · intro hl
    rw [hD, hC]
    simp only [hl, if_true]
    exact ⟨contains_append_left _ (contains_append_left _ (by decide!)),
      contains_append_left _ (contains_append_left _ (by decide!))⟩
  · intro hl
    rw [hD, hC]
    simp only [hl, Bool.false_eq_true, if_false]
    exact ⟨contains_append_left _ (contains_append_left _ (by decide!)),
      contains_append_left _ (contains_append_left _ (by decide!))⟩
  · intro a b r s ha hb hda hcb
    rw [hD] at hda
    rw [hC] at hcb
    simp only [String.append_assoc] at hda hcb
    have h1 := driver_token_unique htok ha _ (by simpa only [String.append_assoc] using hda)
    have h2 := driver_token_unique htok hb _ (by simpa only [String.append_assoc] using hcb)
    exact ⟨h1.symm.trans h2, h1.symm⟩

/-- C7 at `rktExample` (modern driver) and at `legacyDockerExample` (legacy driver). -/
theorem kubelet_cgroup_driver_examples :
    Contains (ExecuteTemplate KubeletSystemdDropinTmpl rktExample.toData).1
      "--cgroup-driver=systemd" ∧
    Contains (ExecuteTemplate KubeletConfigTmpl rktExample.toData).1 "cgroupDriver: systemd" ∧
    Contains (ExecuteTemplate KubeletSystemdDropinTmpl legacyDockerExample.toData).1
      "--cgroup-driver=cgroupfs" ∧
    Contains (ExecuteTemplate KubeletConfigTmpl legacyDockerExample.toData).1
      "cgroupDriver: cgroupfs" :=
  ⟨((kubelet_cgroup_driver rktExample).2.1 rfl).1, ((kubelet_cgroup_driver rktExample).2.1 rfl).2,
   ((kubelet_cgroup_driver legacyDockerExample).1 rfl).1,
   ((kubelet_cgroup_driver legacyDockerExample).1 rfl).2⟩

/-! ## C8: the runtime endpoint is ignored for docker -/

/-- C8: for every Parameter Set with ContainerRuntime "docker" and every other value `e` of
RuntimeEndpoint, each template of `clusterfiles.go` (the rktlet unit, the bootstrap script,
the kubelet drop-in, the kubelet config, the kubeadm config) renders without error and to
the same text for both Parameter Sets. -/
theorem runtime_endpoint_ignored_for_docker (p : ParameterSet) (e : String)
    (hd : p.ContainerRuntime = "docker") :
    ∀ t ∈ templates,
      ExecuteTemplate t ({ p with RuntimeEndpoint := e } : ParameterSet).toData =
        ExecuteTemplate t p.toData ∧
      (ExecuteTemplate t p.toData).2 = none := by
  intro t ht
  simp only [templates, List.mem_cons, List.mem_singleton, List.not_mem_nil, or_false] at ht
  rcases ht with rfl | rfl | rfl | rfl | rfl
  · rw [render_RktletSystemdUnitTmpl, render_RktletSystemdUnitTmpl]
    exact ⟨rfl, rfl⟩
  · rw [render_KubespawnBootstrapScriptTmpl, render_KubespawnBootstrapScriptTmpl]
    exact ⟨rfl, rfl⟩
  · rw [render_KubeletSystemdDropinTmpl, render_KubeletSystemdDropinTmpl]
    simp only [hd, if_true, and_self]
  · rw [render_KubeletConfigTmpl, render_KubeletConfigTmpl]
    simp only [hd, if_true, and_self]
  · rw [render_KubeadmConfigTmpl, render_KubeadmConfigTmpl]
    exact ⟨rfl, rfl⟩

/-- C8 at `dockerExample`, with the endpoint changed from empty to `/run/rktlet.sock`: the
kubelet drop-in and the kubelet config render to the same text, without error. -/
theorem runtime_endpoint_ignored_for_docker_example :
    (ExecuteTemplate KubeletSystemdDropinTmpl
        ({ dockerExample with RuntimeEndpoint := "/run/rktlet.sock" } : ParameterSet).toData =
      ExecuteTemplate KubeletSystemdDropinTmpl dockerExample.toData ∧
     (ExecuteTemplate KubeletSystemdDropinTmpl dockerExample.toData).2 = none) ∧
    (ExecuteTemplate KubeletConfigTmpl
        ({ dockerExample with RuntimeEndpoint := "/run/rktlet.sock" } : ParameterSet).toData =
      ExecuteTemplate KubeletConfigTmpl dockerExample.toData ∧
     (ExecuteTemplate KubeletConfigTmpl dockerExample.toData).2 = none) :=
  ⟨runtime_endpoint_ignored_for_docker dockerExample "/run/rktlet.sock" rfl
      KubeletSystemdDropinTmpl (by decide!),
   runtime_endpoint_ignored_for_docker dockerExample "/run/rktlet.sock" rfl
      KubeletConfigTmpl (by decide!)⟩

/-! ## C9: the reset options in the bootstrap script -/

/-- C9: for every Parameter Set the bootstrap script renders to some text ending in a
newline, `[ -f /etc/kubernetes/kubelet.conf ] && kubeadm reset `, the KubeadmResetOptions
exactly as supplied, a newline and the final line; so it contains the reset command
immediately followed by the options and a newline, and with empty options the render
succeeds and the line ends right after `kubeadm reset `. -/
theorem reset_options_verbatim (p : ParameterSet) :
    (∃ pre, ExecuteTemplate KubespawnBootstrapScriptTmpl p.toData =
      (pre ++ "\n[ -f /etc/kubernetes/kubelet.conf ] && kubeadm reset "
        ++ p.KubeadmResetOptions ++ "\nsystemctl start --no-block kubelet.service\n", none)) ∧
    Contains (ExecuteTemplate KubespawnBootstrapScriptTmpl p.toData).1
      ("[ -f /etc/kubernetes/kubelet.conf ] && kubeadm reset " ++ p.KubeadmResetOptions
        ++ "\n") ∧
    (p.KubeadmResetOptions = "" →
      (ExecuteTemplate KubespawnBootstrapScriptTmpl p.toData).2 = none ∧
      Contains (ExecuteTemplate KubespawnBootstrapScriptTmpl p.toData).1
        "\n[ -f /etc/kubernetes/kubelet.conf ] && kubeadm reset \nsystemctl start --no-block kubelet.service\n") := by
  have hsplit : "\n\nmkdir -p /var/lib/weave\n\n# necessary to prevent docker from being blocked\nsystemctl mask systemd-networkd-wait-online.service\n\n[ -f /etc/kubernetes/kubelet.conf ] && kubeadm reset "
      = "\n\nmkdir -p /var/lib/weave\n\n# necessary to prevent docker from being blocked\nsystemctl mask systemd-networkd-wait-online.service\n"
        ++ "\n[ -f /etc/kubernetes/kubelet.conf ] && kubeadm reset " := by decide!
  refine ⟨⟨"#!/bin/bash\n\nset -euxo pipefail\n\necho \"root:root\" | chpasswd\necho \"core:core\" | chpasswd\n\nsystemctl enable kubelet.service\nsystemctl enable sshd.service\n\n"
        ++ (if p.ContainerRuntime = "docker" then "systemctl start --no-block docker.service"
            else "")
        ++ "\n"
        ++ (if p.ContainerRuntime = "rkt" then
              "systemctl start --no-block rktlet.service\nmkdir -p /usr/lib/rkt/plugins\nln -s /opt/cni/bin/ /usr/lib/rkt/plugins/net\nln -sfT /etc/cni/net.d /etc/rkt/net.d"
            else "")
        ++ "\n\nmkdir -p /var/lib/weave\n\n# necessary to prevent docker from being blocked\nsystemctl mask systemd-networkd-wait-online.service\n", ?_⟩, ?_, ?_⟩
  · rw [render_KubespawnBootstrapScriptTmpl, hsplit]
    simp only [String.append_assoc]
  · rw [render_KubespawnBootstrapScriptTmpl]
    simp only [String.append_assoc]
    refine contains_append_right _ (contains_append_right _ (contains_append_right _
      (contains_append_right _ ?_)))
    have hs := contains_sandwich
      (k := "\n\nmkdir -p /var/lib/weave\n\n# necessary to prevent docker from being blocked\nsystemctl mask systemd-networkd-wait-online.service\n\n[ -f /etc/kubernetes/kubelet.conf ] && kubeadm reset ")
      (t := "\nsystemctl start --no-block kubelet.service\n")
      (a := "[ -f /etc/kubernetes/kubelet.conf ] && kubeadm reset ") (b := "\n")
      p.KubeadmResetOptions (by decide!) (by decide!)
    simpa only [String.append_assoc] using hs
  · intro he
    rw [render_KubespawnBootstrapScriptTmpl, he]
    refine ⟨rfl, ?_⟩
    rw [String.append_empty, String.append_assoc]
    exact contains_append_right _ (by decide!)

/-- C9 at `dockerExample` (options `--force`) and at `rktExample` (no options). -/
theorem reset_options_verbatim_examples :
    Contains (ExecuteTemplate KubespawnBootstrapScriptTmpl dockerExample.toData).1
      "[ -f /etc/kubernetes/kubelet.conf ] && kubeadm reset --force\n" ∧
    Contains (ExecuteTemplate KubespawnBootstrapScriptTmpl rktExample.toData).1
      "\n[ -f /etc/kubernetes/kubelet.conf ] && kubeadm reset \nsystemctl start --no-block kubelet.service\n" :=
  ⟨(reset_options_verbatim dockerExample).2.1, ((reset_options_verbatim rktExample).2.2 rfl).2⟩

/-! ## C10: the layout of the kubeadm configuration -/

/-- C10: for every Parameter Set the kubeadm config renders to the fixed header ending in
`kubernetesVersion: `, the KubernetesVersion, `schedulerExtraArgs:` on its own line, and
then three blocks each followed by one newline, a block being empty when its field is empty
and otherwise its keys and the field; with all three fields empty the text ends in
`schedulerExtraArgs:` and four newlines. -/
theorem kubeadm_config_layout (p : ParameterSet) :
    ExecuteTemplate KubeadmConfigTmpl p.toData =
      ("apiVersion: kubeadm.k8s.io/v1alpha1\nauthorizationMode: AlwaysAllow\napiServerExtraArgs:\n  insecure-port: \"8080\"\ncontrollerManagerExtraArgs:\nkubernetesVersion: "
        ++ p.KubernetesVersion
        ++ "\nschedulerExtraArgs:\n"
        ++ (if p.ClusterCIDR = "" then ""
            else "kubeProxy:\n  config:\n    clusterCIDR: " ++ p.ClusterCIDR)
        ++ "\n"
        ++ (if p.PodNetworkCIDR = "" then ""
            else "networking:\n  podSubnet: " ++ p.PodNetworkCIDR)
        ++ "\n"
        ++ (if p.HyperkubeImage = "" then ""
            else "unifiedControlPlaneImage: " ++ p.HyperkubeImage)
        ++ "\n",
       none) ∧
    (p.ClusterCIDR = "" → p.PodNetworkCIDR = "" → p.HyperkubeImage = "" →
      ExecuteTemplate KubeadmConfigTmpl p.toData =
        ("apiVersion: kubeadm.k8s.io/v1alpha1\nauthorizationMode: AlwaysAllow\napiServerExtraArgs:\n  insecure-port: \"8080\"\ncontrollerManagerExtraArgs:\nkubernetesVersion: "
          ++ p.KubernetesVersion ++ "\n" ++ "schedulerExtraArgs:\n\n\n\n", none)) := by
  refine ⟨render_KubeadmConfigTmpl p, ?_⟩
  intro h1 h2 h3
  rw [render_KubeadmConfigTmpl]
  simp only [h1, h2, h3, if_true, String.append_empty, String.append_assoc]
  rfl

/-- C10 at `bareExample`, where the three optional fields are empty. -/
theorem kubeadm_config_layout_example :
    ExecuteTemplate KubeadmConfigTmpl
        bareExample.toData =
      ("apiVersion: kubeadm.k8s.io/v1alpha1\nauthorizationMode: AlwaysAllow\napiServerExtraArgs:\n  insecure-port: \"8080\"\ncontrollerManagerExtraArgs:\nkubernetesVersion: v1.10.0\nschedulerExtraArgs:\n\n\n\n",
       none) :=
  (kubeadm_config_layout bareExample).2 rfl rfl rfl

/-! ## C11: the line continuation of the kubelet drop-in -/

/-- A text has at least one line. -/
theorem splitLines_ne_nil (cs : List Char) : splitLines cs ≠ [] := by
  cases cs with
  | nil => simp [splitLines]
  | cons c cs =>
    unfold splitLines
    split
    · simp
    · split <;> simp

/-- An empty line before some lines continues into the first of them. -/
theorem glue_nil_line (ys : List (List Char)) (h : ys ≠ []) : glue [[]] ys = ys := by
  cases ys with
  | nil => exact absurd rfl h
  | cons y t => simp [glue]

/-- A line that is not the last of its text stays as it is. -/
theorem glue_cons (l : List Char) (xs ys : List (List Char)) (h : xs ≠ []) :
    glue (l :: xs) ys = l :: glue xs ys := by
  cases xs with
  | nil => exact absurd rfl h
  | cons m ls => simp [glue]

/-- The lines of two texts written one after the other. -/
theorem splitLines_append (x y : List Char) :
    splitLines (x ++ y) = glue (splitLines x) (splitLines y) := by
  induction x with
  | nil =>
    rw [List.nil_append]
    exact (glue_nil_line _ (splitLines_ne_nil y)).symm
  | cons c x ih =>
    rw [List.cons_append]
    by_cases hc : c = '\n'
    · simp only [splitLines, hc, if_true, ih]
      exact (glue_cons _ _ _ (splitLines_ne_nil x)).symm
    · simp only [splitLines, hc, if_false, ih]
      rcases hx : splitLines x with _ | ⟨l, ls⟩
      · exact absurd hx (splitLines_ne_nil x)
      · cases ls with
        | nil =>
          rcases hy : splitLines y with _ | ⟨h, t⟩
          · exact absurd hy (splitLines_ne_nil y)
          · simp [glue]
        | cons m ls => simp [glue]

/-- A text without a newline is one line. -/
theorem splitLines_of_no_newline (x : List Char) (h : '\n' ∉ x) : splitLines x = [x] := by
  induction x with
  | nil => rfl
  | cons c x ih =>
    have hc : c ≠ '\n' := fun e => h (by simp [e])
    have hx : '\n' ∉ x := fun e => h (List.mem_cons_of_mem _ e)
    simp [splitLines, hc, ih hx]

/-- The last line of the first text and the first line of the second become one line. -/
theorem glue_snoc_cons (xs : List (List Char)) (l h : List Char) (t : List (List Char)) :
    glue (xs ++ [l]) (h :: t) = xs ++ (l ++ h) :: t := by
  induction xs with
  | nil => rfl
  | cons x xs ih =>
    rw [List.cons_append, glue_cons _ _ _ (by simp), ih, List.cons_append]

/-- The lines of a string as character lists. -/
theorem map_data_of_lines {s : String} {ls : List String} (h : lines s = ls) :
    splitLines s.data = ls.map String.data := by
  have := congrArg (List.map String.data) h
  simpa [lines, Function.comp_def] using this

/-- The lines of a text `v` without a newline written between two texts: `v` lies on one
line, after the last line of what precedes it and before the first line of what follows. -/
theorem lines_sandwich (x y v : String) (xs : List String) (xl yh : String)
    (ys : List String) (hv : '\n' ∉ v.data) (hx : lines x = xs ++ [xl])
    (hy : lines y = yh :: ys) :
    lines (x ++ v ++ y) = xs ++ (xl ++ v ++ yh) :: ys := by
  have hx' := map_data_of_lines hx
  have hy' := map_data_of_lines hy
  simp only [List.map_append, List.map_cons, List.map_nil] at hx' hy'
  unfold lines
  rw [String.data_append, String.data_append, List.append_assoc, splitLines_append,
    splitLines_append, hx', hy', splitLines_of_no_newline _ hv]
  simp only [glue, glue_snoc_cons, List.map_append, List.map_cons, List.map_map,
    Function.comp_def, List.append_assoc]
  simp [String.ext_iff, String.data_append]

/-- A line ends as its last part ends. -/
theorem endsWithBackslash_append (a : String) {b : String} (h : EndsWithBackslash b) :
    EndsWithBackslash (a ++ b) := by
  unfold EndsWithBackslash at h ⊢
  have hb : b.data ≠ [] := by
    intro e; rw [e] at h; simp at h
  rw [String.data_append, List.getLast?_append_of_ne_nil _ hb, h]

/-- C11: for every Parameter Set whose RuntimeEndpoint has no newline, the kubelet drop-in
renders to the lines below: two lines, then the lines from `Environment="KUBELET_EXTRA_ARGS=`
on, then the final line `--authentication-token-webhook"` and the empty line after the last
newline.  Every line from `Environment="KUBELET_EXTRA_ARGS=` up to the final line ends with
a backslash; the runtime conditional leaves one line of a space and a backslash for docker,
and the three remote-runtime flag lines, each ending in a space and a backslash, for any
other runtime. -/
theorem extra_args_lines_continue (p : ParameterSet) (hep : '\n' ∉ p.RuntimeEndpoint.data) :
    (ExecuteTemplate KubeletSystemdDropinTmpl p.toData).2 = none ∧
    lines (ExecuteTemplate KubeletSystemdDropinTmpl p.toData).1 =
      ["[Service]",
       "Environment=\"KUBELET_CGROUP_ARGS=--cgroup-driver="
         ++ (if p.UseLegacyCgroupDriver then "cgroupfs" else "systemd") ++ "\""]
      ++ ("Environment=\"KUBELET_EXTRA_ARGS=\\" ::
          ((if p.ContainerRuntime = "docker" then [" \\"]
            else ["--container-runtime=remote \\",
                  "--container-runtime-endpoint=" ++ p.RuntimeEndpoint ++ " \\",
                  "--runtime-request-timeout=15m \\"])
           ++ ["--enforce-node-allocatable= \\", "--eviction-hard= \\",
               "--cgroups-per-qos=false \\", "--fail-swap-on=false \\"]))
      ++ ["--authentication-token-webhook\"", ""] ∧
    (∀ l ∈ "Environment=\"KUBELET_EXTRA_ARGS=\\" ::
          ((if p.ContainerRuntime = "docker" then [" \\"]
            else ["--container-runtime=remote \\",
                  "--container-runtime-endpoint=" ++ p.RuntimeEndpoint ++ " \\",
                  "--runtime-request-timeout=15m \\"])
           ++ ["--enforce-node-allocatable= \\", "--eviction-hard= \\",
               "--cgroups-per-qos=false \\", "--fail-swap-on=false \\"]),
      EndsWithBackslash l) := by
  refine ⟨by rw [render_KubeletSystemdDropinTmpl], ?_, ?_⟩
  · rw [render_KubeletSystemdDropinTmpl]
    by_cases hd : p.ContainerRuntime = "docker"
    · simp only [hd, if_true]
      cases p.UseLegacyCgroupDriver <;> decide!
    · simp only [hd, if_false]
      cases p.UseLegacyCgroupDriver
      · simp only [Bool.false_eq_true, if_false]
        have h := lines_sandwich
          "[Service]\nEnvironment=\"KUBELET_CGROUP_ARGS=--cgroup-driver=systemd\"\nEnvironment=\"KUBELET_EXTRA_ARGS=\\\n--container-runtime=remote \\\n--container-runtime-endpoint="
          " \\\n--runtime-request-timeout=15m \\\n--enforce-node-allocatable= \\\n--eviction-hard= \\\n--cgroups-per-qos=false \\\n--fail-swap-on=false \\\n--authentication-token-webhook\"\n"
          p.RuntimeEndpoint
          ["[Service]", "Environment=\"KUBELET_CGROUP_ARGS=--cgroup-driver=systemd\"",
           "Environment=\"KUBELET_EXTRA_ARGS=\\", "--container-runtime=remote \\"]
          "--container-runtime-endpoint=" " \\"
          ["--runtime-request-timeout=15m \\", "--enforce-node-allocatable= \\",
           "--eviction-hard= \\", "--cgroups-per-qos=false \\", "--fail-swap-on=false \\",
           "--authentication-token-webhook\"", ""]
          hep (by decide!) (by decide!)
        rw [show "[Service]\nEnvironment=\"KUBELET_CGROUP_ARGS=--cgroup-driver=systemd\"\nEnvironment=\"KUBELET_EXTRA_ARGS=\\\n--container-runtime=remote \\\n--container-runtime-endpoint="
            = "[Service]\nEnvironment=\"KUBELET_CGROUP_ARGS=--cgroup-driver=" ++ "systemd"
              ++ "\"\nEnvironment=\"KUBELET_EXTRA_ARGS=\\\n"
              ++ "--container-runtime=remote \\\n--container-runtime-endpoint=" from by decide!,
          show " \\\n--runtime-request-timeout=15m \\\n--enforce-node-allocatable= \\\n--eviction-hard= \\\n--cgroups-per-qos=false \\\n--fail-swap-on=false \\\n--authentication-token-webhook\"\n"
            = " \\\n--runtime-request-timeout=15m"
              ++ " \\\n--enforce-node-allocatable= \\\n--eviction-hard= \\\n--cgroups-per-qos=false \\\n--fail-swap-on=false \\\n--authentication-token-webhook\"\n" from by decide!] at h
        simp only [String.append_assoc] at h ⊢
        rw [h]
        rfl
      · simp only [if_true]
        have h := lines_sandwich
          "[Service]\nEnvironment=\"KUBELET_CGROUP_ARGS=--cgroup-driver=cgroupfs\"\nEnvironment=\"KUBELET_EXTRA_ARGS=\\\n--container-runtime=remote \\\n--container-runtime-endpoint="
          " \\\n--runtime-request-timeout=15m \\\n--enforce-node-allocatable= \\\n--eviction-hard= \\\n--cgroups-per-qos=false \\\n--fail-swap-on=false \\\n--authentication-token-webhook\"\n"
          p.RuntimeEndpoint
          ["[Service]", "Environment=\"KUBELET_CGROUP_ARGS=--cgroup-driver=cgroupfs\"",
           "Environment=\"KUBELET_EXTRA_ARGS=\\", "--container-runtime=remote \\"]
          "--container-runtime-endpoint=" " \\"
          ["--runtime-request-timeout=15m \\", "--enforce-node-allocatable= \\",
           "--eviction-hard= \\", "--cgroups-per-qos=false \\", "--fail-swap-on=false \\",
           "--authentication-token-webhook\"", ""]
          hep (by decide!) (by decide!)
        rw [show "[Service]\nEnvironment=\"KUBELET_CGROUP_ARGS=--cgroup-driver=cgroupfs\"\nEnvironment=\"KUBELET_EXTRA_ARGS=\\\n--container-runtime=remote \\\n--container-runtime-endpoint="
            = "[Service]\nEnvironment=\"KUBELET_CGROUP_ARGS=--cgroup-driver=" ++ "cgroupfs"
              ++ "\"\nEnvironment=\"KUBELET_EXTRA_ARGS=\\\n"
              ++ "--container-runtime=remote \\\n--container-runtime-endpoint=" from by decide!,
          show " \\\n--runtime-request-timeout=15m \\\n--enforce-node-allocatable= \\\n--eviction-hard= \\\n--cgroups-per-qos=false \\\n--fail-swap-on=false \\\n--authentication-token-webhook\"\n"
            = " \\\n--runtime-request-timeout=15m"
              ++ " \\\n--enforce-node-allocatable= \\\n--eviction-hard= \\\n--cgroups-per-qos=false \\\n--fail-swap-on=false \\\n--authentication-token-webhook\"\n" from by decide!] at h
        simp only [String.append_assoc] at h ⊢
        rw [h]
        rfl
  · intro l hl
    by_cases hd : p.ContainerRuntime = "docker"
    · simp only [hd, if_true] at hl
      revert l
      decide!
    · simp only [hd, if_false, List.cons_append, List.nil_append, List.mem_cons,
        List.mem_singleton, List.not_mem_nil, or_false] at hl
      rcases hl with rfl | rfl | rfl | rfl | rfl | rfl | rfl | rfl
      · decide!
      · decide!
      · exact endsWithBackslash_append _ (by decide!)
      · decide!
      · decide!
      · decide!
      · decide!
      · decide!

/-- C11 at `rktExample` (three flag lines) and at `dockerExample` (the line of a space and a
backslash). -/
theorem extra_args_lines_continue_examples :
    lines (ExecuteTemplate KubeletSystemdDropinTmpl rktExample.toData).1 =
      ["[Service]",
       "Environment=\"KUBELET_CGROUP_ARGS=--cgroup-driver=systemd\"",
       "Environment=\"KUBELET_EXTRA_ARGS=\\",
       "--container-runtime=remote \\",
       "--container-runtime-endpoint=/run/rktlet.sock \\",
       "--runtime-request-timeout=15m \\",
       "--enforce-node-allocatable= \\",
       "--eviction-hard= \\",
       "--cgroups-per-qos=false \\",
       "--fail-swap-on=false \\",
       "--authentication-token-webhook\"",
       ""] ∧
    EndsWithBackslash "--container-runtime-endpoint=/run/rktlet.sock \\" ∧
    lines (ExecuteTemplate KubeletSystemdDropinTmpl dockerExample.toData).1 =
      ["[Service]",
       "Environment=\"KUBELET_CGROUP_ARGS=--cgroup-driver=systemd\"",
       "Environment=\"KUBELET_EXTRA_ARGS=\\",
       " \\",
       "--enforce-node-allocatable= \\",
       "--eviction-hard= \\",
       "--cgroups-per-qos=false \\",
       "--fail-swap-on=false \\",
       "--authentication-token-webhook\"",
       ""] ∧
    EndsWithBackslash " \\" :=
  ⟨(extra_args_lines_continue rktExample (by decide!)).2.1.trans (by decide!),
   (extra_args_lines_continue rktExample (by decide!)).2.2 _ (by decide!),
   (extra_args_lines_continue dockerExample (by decide!)).2.1.trans (by decide!),
   (extra_args_lines_continue dockerExample (by decide!)).2.2 _ (by decide!)⟩

end Cluster
